import Mathlib

set_option linter.unusedVariables false
set_option maxHeartbeats 4000000

/-!
Verification development for the Li et al. (2006) variational Helmholtz
decomposition code (`psi_phi_local.py`).

Modelling conventions of the shallow embedding:
* flat numpy vectors are `List ℚ` (exact rational arithmetic in place of floats);
* 2-D spacing arrays `DX`, `DY` are total functions `ℕ → ℕ → ℚ`;
* the fields `psi`, `phi` and the scattered velocities `u`, `v` are read out of
  the flat vectors by index arithmetic, exactly as `reshape` does (row major);
* `NaN` is modelled by `Option ℚ` with `none` for `NaN`: the only place the
  source can produce a `NaN` from finite data is the `np.ones(..)*np.nan`
  initialisation of the `curl1` / `div1` arrays in `derive_adj`, so only those
  arrays and everything downstream of them carry `Option`;
* sequential numpy slice assignments become nested function overrides, with the
  later assignment taking precedence;
* each numpy intermediate array is a named definition so that theorems can
  evaluate single entries without expanding the whole computation.
-/

/-- `x[k]` for a flat vector (out-of-range reads default to `0`; all theorems
supply in-range indices). -/
def vecGet (x : List ℚ) (k : ℕ) : ℚ := x.getD k 0

/-- `np.matmul(a.T, b)` for flat vectors: the Euclidean inner product. -/
def dot (a b : List ℚ) : ℚ := (List.zipWith (fun p q => p * q) a b).sum

/-- Sum of squared entries, `‖a‖²`. -/
def sumSq (a : List ℚ) : ℚ := (a.map (fun p => p * p)).sum

/-- `ax[IDATA]`: keep the entries of `l` at the `true` positions of `mask`. -/
def maskFilter (mask : List Bool) (l : List ℚ) : List ℚ :=
  ((mask.zip l).filter (fun p => p.1)).map (fun p => p.2)

/-- `er = np.zeros(n); er[IDATA] = e`: scatter `e` into a zero vector at the
`true` positions of the mask. -/
def maskScatter : List Bool → List ℚ → List ℚ
  | [], _ => []
  | false :: ms, es => 0 :: maskScatter ms es
  | true :: ms, [] => 0 :: maskScatter ms []
  | true :: ms, a :: es => a :: maskScatter ms es

/-! ### Forward operator `derive_ax` (source lines 153-184) -/

/-- q-point zonal velocity `u` of `derive_ax` (source lines 167-173):
`u = avg_x(dpsi/dy) + avg_y(dphi/dx)` with averaged local spacings. -/
def ax_u (x : List ℚ) (DX DY : ℕ → ℕ → ℚ) (M1 N1 : ℕ) (i j : ℕ) : ℚ :=
  let psi : ℕ → ℕ → ℚ := fun i j => vecGet x (i * N1 + j)
  let phi : ℕ → ℕ → ℚ := fun i j => vecGet x (M1 * N1 + i * N1 + j)
  let dpsidy : ℕ → ℕ → ℚ := fun i j => (psi (i+1) j - psi i j) / ((DY (i+1) j + DY i j) / 2)
  let dphidx : ℕ → ℕ → ℚ := fun i j => (phi i (j+1) - phi i j) / ((DX i (j+1) + DX i j) / 2)
  (dpsidy i (j+1) + dpsidy i j) / 2 + (dphidx (i+1) j + dphidx i j) / 2

/-- q-point meridional velocity `v` of `derive_ax` (source lines 167-174):
`v = -avg_x(dpsi/dx) + avg_y(dphi/dy)`. -/
def ax_v (x : List ℚ) (DX DY : ℕ → ℕ → ℚ) (M1 N1 : ℕ) (i j : ℕ) : ℚ :=
  let psi : ℕ → ℕ → ℚ := fun i j => vecGet x (i * N1 + j)
  let phi : ℕ → ℕ → ℚ := fun i j => vecGet x (M1 * N1 + i * N1 + j)
  let dpsidx : ℕ → ℕ → ℚ := fun i j => (psi i (j+1) - psi i j) / ((DX i (j+1) + DX i j) / 2)
  let dphidy : ℕ → ℕ → ℚ := fun i j => (phi (i+1) j - phi i j) / ((DY (i+1) j + DY i j) / 2)
  let avx := -((dpsidx (i+1) j + dpsidx i j) / 2)
  avx + (dphidy i (j+1) + dphidy i j) / 2

/-- Forward operator `derive_ax` (source lines 153-184): unpack `x` into
`psi`, `phi` of shape `(M1,N1)`, build the q-point velocities `u`, `v` of
shape `(M1-1,N1-1)`, flatten `u` first, then restrict to the mask. -/
def derive_ax (x : List ℚ) (DX DY : ℕ → ℕ → ℚ) (M1 N1 : ℕ) (IDATA : List Bool) :
    List ℚ :=
  maskFilter IDATA
    (((List.range ((M1-1) * (N1-1))).map fun k => ax_u x DX DY M1 N1 (k / (N1-1)) (k % (N1-1)))
      ++ ((List.range ((M1-1) * (N1-1))).map fun k => ax_v x DX DY M1 N1 (k / (N1-1)) (k % (N1-1))))

/-! ### Adjoint operator `derive_adj` (source lines 191-324)

The scattered residual `er` has `u` in its first `(M1-1)*(N1-1)` entries and
`v` in the rest; `adj_dy`/`adj_dx` are the u-point/v-point spacings of source
lines 214-215. -/

/-- `u = er[:half].reshape((M1-1,N1-1))` (source lines 207-210). -/
def adj_u (er : List ℚ) (M1 N1 : ℕ) (i j : ℕ) : ℚ := vecGet er (i * (N1-1) + j)

/-- `v = er[half:].reshape((M1-1,N1-1))` (source lines 208-211). -/
def adj_v (er : List ℚ) (M1 N1 : ℕ) (i j : ℕ) : ℚ :=
  vecGet er ((M1-1) * (N1-1) + i * (N1-1) + j)

/-- `dy = (DY[1:-1,1:]+DY[1:-1,:-1])/2` (source line 214). -/
def adj_dy (DY : ℕ → ℕ → ℚ) (i j : ℕ) : ℚ := (DY (i+1) (j+1) + DY (i+1) j) / 2

/-- `dx = (DX[1:,1:-1]+DX[:-1,1:-1])/2` (source line 215). -/
def adj_dx (DX : ℕ → ℕ → ℚ) (i j : ℕ) : ℚ := (DX (i+1) (j+1) + DX i (j+1)) / 2

/-- `dudy` differenced then averaged along x (source lines 219-220). -/
def adj_dudy (er : List ℚ) (DY : ℕ → ℕ → ℚ) (M1 N1 : ℕ) (i j : ℕ) : ℚ :=
  ((adj_u er M1 N1 (i+1) (j+1) - adj_u er M1 N1 i (j+1)) / adj_dy DY i (j+1)
    + (adj_u er M1 N1 (i+1) j - adj_u er M1 N1 i j) / adj_dy DY i j) / 2

/-- `dvdx` differenced then averaged along y (source lines 222-223). -/
def adj_dvdx (er : List ℚ) (DX : ℕ → ℕ → ℚ) (M1 N1 : ℕ) (i j : ℕ) : ℚ :=
  ((adj_v er M1 N1 (i+1) (j+1) - adj_v er M1 N1 (i+1) j) / adj_dx DX (i+1) j
    + (adj_v er M1 N1 i (j+1) - adj_v er M1 N1 i j) / adj_dx DX i j) / 2

/-- `dvdy` differenced then averaged along x (source lines 226-227). -/
def adj_dvdy (er : List ℚ) (DY : ℕ → ℕ → ℚ) (M1 N1 : ℕ) (i j : ℕ) : ℚ :=
  ((adj_v er M1 N1 (i+1) (j+1) - adj_v er M1 N1 i (j+1)) / adj_dy DY i (j+1)
    + (adj_v er M1 N1 (i+1) j - adj_v er M1 N1 i j) / adj_dy DY i j) / 2

/-- `dudx` differenced then averaged along y (source lines 229-230). -/
def adj_dudx (er : List ℚ) (DX : ℕ → ℕ → ℚ) (M1 N1 : ℕ) (i j : ℕ) : ℚ :=
  ((adj_u er M1 N1 (i+1) (j+1) - adj_u er M1 N1 (i+1) j) / adj_dx DX (i+1) j
    + (adj_u er M1 N1 i (j+1) - adj_u er M1 N1 i j) / adj_dx DX i j) / 2

/-- Interior curl `curl = dvdx - dudy` (source line 234). -/
def adj_curl (er : List ℚ) (DX DY : ℕ → ℕ → ℚ) (M1 N1 : ℕ) (i j : ℕ) : ℚ :=
  adj_dvdx er DX M1 N1 i j - adj_dudy er DY M1 N1 i j

/-- Interior divergence `div = dudx + dvdy` (source line 240). -/
def adj_div (er : List ℚ) (DX DY : ℕ → ℕ → ℚ) (M1 N1 : ℕ) (i j : ℕ) : ℚ :=
  adj_dudx er DX M1 N1 i j + adj_dvdy er DY M1 N1 i j

/-- `dudy_1 = (u[1:,0]-u[:-1,0])/dy[:,0]` (source line 252). -/
def adj_dudy1 (er : List ℚ) (DY : ℕ → ℕ → ℚ) (M1 N1 : ℕ) (i : ℕ) : ℚ :=
  (adj_u er M1 N1 (i+1) 0 - adj_u er M1 N1 i 0) / adj_dy DY i 0

/-- `dudy_2 = (u[1:,-1]-u[:-1,-1])/dy[:,-1]` (source line 253). -/
def adj_dudy2 (er : List ℚ) (DY : ℕ → ℕ → ℚ) (M1 N1 : ℕ) (i : ℕ) : ℚ :=
  (adj_u er M1 N1 (i+1) (N1-2) - adj_u er M1 N1 i (N1-2)) / adj_dy DY i (N1-2)

/-- `dvdx_1 = (v[:,0]-v[:,-1])/dx[:,0]` — the zonal wrap difference
(source line 255); `dvdx_2` is a copy of it (line 256). -/
def adj_dvdx1 (er : List ℚ) (DX : ℕ → ℕ → ℚ) (M1 N1 : ℕ) (i : ℕ) : ℚ :=
  (adj_v er M1 N1 i 0 - adj_v er M1 N1 i (N1-2)) / adj_dx DX i 0

/-- `dvdy_1 = (v[1:,0]-v[:-1,0])/dy[:,0]` (source line 263). -/
def adj_dvdy1 (er : List ℚ) (DY : ℕ → ℕ → ℚ) (M1 N1 : ℕ) (i : ℕ) : ℚ :=
  (adj_v er M1 N1 (i+1) 0 - adj_v er M1 N1 i 0) / adj_dy DY i 0

/-- `dvdy_2 = (v[1:,-1]-v[:-1,-1])/dy[:,-1]` (source line 264). -/
def adj_dvdy2 (er : List ℚ) (DY : ℕ → ℕ → ℚ) (M1 N1 : ℕ) (i : ℕ) : ℚ :=
  (adj_v er M1 N1 (i+1) (N1-2) - adj_v er M1 N1 i (N1-2)) / adj_dy DY i (N1-2)

/-- `dudx_1 = (u[:,0]-u[:,-1])/dx[:,0]` — the zonal wrap difference
(source line 266); `dudx_2` is a copy of it (line 267). -/
def adj_dudx1 (er : List ℚ) (DX : ℕ → ℕ → ℚ) (M1 N1 : ℕ) (i : ℕ) : ℚ :=
  (adj_u er M1 N1 i 0 - adj_u er M1 N1 i (N1-2)) / adj_dx DX i 0

/-- West border curl values `curl1[1:-1,0]` for `ZBC` periodic
(source line 258), as a function of the border row `r ∈ [1, M1-2]`. -/
def adj_westC (er : List ℚ) (DX DY : ℕ → ℕ → ℚ) (M1 N1 : ℕ) (r : ℕ) : ℚ :=
  (adj_dvdx1 er DX M1 N1 r + adj_dvdx1 er DX M1 N1 (r-1)) / 2 - adj_dudy1 er DY M1 N1 (r-1)

/-- East border curl values `curl1[1:-1,-1]` for `ZBC` periodic
(source line 259); reuses the same wrapped `dvdx` term. -/
def adj_eastC (er : List ℚ) (DX DY : ℕ → ℕ → ℚ) (M1 N1 : ℕ) (r : ℕ) : ℚ :=
  (adj_dvdx1 er DX M1 N1 r + adj_dvdx1 er DX M1 N1 (r-1)) / 2 - adj_dudy2 er DY M1 N1 (r-1)

/-- West border divergence values `div1[1:-1,0]` for `ZBC` periodic
(source line 269). -/
def adj_westD (er : List ℚ) (DX DY : ℕ → ℕ → ℚ) (M1 N1 : ℕ) (r : ℕ) : ℚ :=
  (adj_dudx1 er DX M1 N1 r + adj_dudx1 er DX M1 N1 (r-1)) / 2 + adj_dvdy1 er DY M1 N1 (r-1)

/-- East border divergence values `div1[1:-1,-1]` for `ZBC` periodic
(source line 270). -/
def adj_eastD (er : List ℚ) (DX DY : ℕ → ℕ → ℚ) (M1 N1 : ℕ) (r : ℕ) : ℚ :=
  (adj_dudx1 er DX M1 N1 r + adj_dudx1 er DX M1 N1 (r-1)) / 2 + adj_dvdy2 er DY M1 N1 (r-1)

/-- `dudy_1 = (u[0,:]-u[-1,:])/dy[0,:]` — the meridional wrap difference
(source line 280); `dudy_2` is a copy of it (line 281). -/
def adj_dudy1m (er : List ℚ) (DY : ℕ → ℕ → ℚ) (M1 N1 : ℕ) (j : ℕ) : ℚ :=
  (adj_u er M1 N1 0 j - adj_u er M1 N1 (M1-2) j) / adj_dy DY 0 j

/-- `dvdx_1 = (v[0,1:]-v[0,:-1])/dx[0,:]` (source line 283). -/
def adj_dvdx1m (er : List ℚ) (DX : ℕ → ℕ → ℚ) (M1 N1 : ℕ) (j : ℕ) : ℚ :=
  (adj_v er M1 N1 0 (j+1) - adj_v er M1 N1 0 j) / adj_dx DX 0 j

/-- `dvdx_2 = (v[-1,1:]-v[-1,:-1])/dx[-1,:]` (source line 284). -/
def adj_dvdx2m (er : List ℚ) (DX : ℕ → ℕ → ℚ) (M1 N1 : ℕ) (j : ℕ) : ℚ :=
  (adj_v er M1 N1 (M1-2) (j+1) - adj_v er M1 N1 (M1-2) j) / adj_dx DX (M1-2) j

/-- `dvdy_1 = (v[0,:]-v[-1,:])/dy[0,:]` — the meridional wrap difference
(source line 291); `dvdy_2` is a copy of it (line 292). -/
def adj_dvdy1m (er : List ℚ) (DY : ℕ → ℕ → ℚ) (M1 N1 : ℕ) (j : ℕ) : ℚ :=
  (adj_v er M1 N1 0 j - adj_v er M1 N1 (M1-2) j) / adj_dy DY 0 j

/-- `dudx_1 = (u[0,1:]-u[0,:-1])/dx[0,:]` (source line 294). -/
def adj_dudx1m (er : List ℚ) (DX : ℕ → ℕ → ℚ) (M1 N1 : ℕ) (j : ℕ) : ℚ :=
  (adj_u er M1 N1 0 (j+1) - adj_u er M1 N1 0 j) / adj_dx DX 0 j

/-- `dudx_2 = (u[-1,1:]-u[-1,:-1])/dx[-1,:]` (source line 295). -/
def adj_dudx2m (er : List ℚ) (DX : ℕ → ℕ → ℚ) (M1 N1 : ℕ) (j : ℕ) : ℚ :=
  (adj_u er M1 N1 (M1-2) (j+1) - adj_u er M1 N1 (M1-2) j) / adj_dx DX (M1-2) j

/-- North border curl values `curl1[0,1:-1]` for `MBC` periodic
(source line 286), as a function of the border column `c ∈ [1, N1-2]`. -/
def adj_northC (er : List ℚ) (DX DY : ℕ → ℕ → ℚ) (M1 N1 : ℕ) (c : ℕ) : ℚ :=
  adj_dvdx1m er DX M1 N1 (c-1)
    - (adj_dudy1m er DY M1 N1 c + adj_dudy1m er DY M1 N1 (c-1)) / 2

/-- South border curl values `curl1[-1,1:-1]` for `MBC` periodic
(source line 287); reuses the same wrapped `dudy` term. -/
def adj_southC (er : List ℚ) (DX DY : ℕ → ℕ → ℚ) (M1 N1 : ℕ) (c : ℕ) : ℚ :=
  adj_dvdx2m er DX M1 N1 (c-1)
    - (adj_dudy1m er DY M1 N1 c + adj_dudy1m er DY M1 N1 (c-1)) / 2

/-- North border divergence values `div1[0,1:-1]` for `MBC` periodic
(source line 297). -/
def adj_northD (er : List ℚ) (DX DY : ℕ → ℕ → ℚ) (M1 N1 : ℕ) (c : ℕ) : ℚ :=
  adj_dudx1m er DX M1 N1 (c-1)
    + (adj_dvdy1m er DY M1 N1 c + adj_dvdy1m er DY M1 N1 (c-1)) / 2

/-- South border divergence values `div1[-1,1:-1]` for `MBC` periodic
(source line 298). -/
def adj_southD (er : List ℚ) (DX DY : ℕ → ℕ → ℚ) (M1 N1 : ℕ) (c : ℕ) : ℚ :=
  adj_dudx2m er DX M1 N1 (c-1)
    + (adj_dvdy1m er DY M1 N1 c + adj_dvdy1m er DY M1 N1 (c-1)) / 2

/-- `curl1 = np.ones((M1,N1))*np.nan; curl1[1:-1,1:-1] = g` — NaN-initialised
array with the interior filled from `g` (shifted by one). -/
def interiorInit (M1 N1 : ℕ) (g : ℕ → ℕ → ℚ) : ℕ → ℕ → Option ℚ :=
  fun i j =>
    if 1 ≤ i ∧ i ≤ M1 - 2 ∧ 1 ≤ j ∧ j ≤ N1 - 2 then some (g (i-1) (j-1)) else none

/-- `c[:,0] = c[:,1]; c[:,-1] = c[:,-2]` — closed-edge column copies, applied
sequentially (source lines 273-274 and 310, 313). -/
def colCopyClosed (N1 : ℕ) (c : ℕ → ℕ → Option ℚ) : ℕ → ℕ → Option ℚ :=
  let c1 := fun i j => if j = 0 then c i 1 else c i j
  fun i j => if j = N1 - 1 then c1 i (N1 - 2) else c1 i j

/-- `c[0,:] = c[1,:]; c[-1,:] = c[-2,:]` — closed-edge row copies, applied
sequentially (source lines 302-303). -/
def rowCopyClosed (M1 : ℕ) (c : ℕ → ℕ → Option ℚ) : ℕ → ℕ → Option ℚ :=
  let c1 := fun i j => if i = 0 then c 1 j else c i j
  fun i j => if i = M1 - 1 then c1 (M1 - 2) j else c1 i j

/-- `c[0,1:-1] = g[0,:]; c[-1,1:-1] = g[-1,:]` — the all-closed branch copies
the first and last rows of the interior array `g` onto the border rows
(source lines 309, 312). -/
def rowFillClosed (M1 N1 : ℕ) (g : ℕ → ℕ → ℚ) (c : ℕ → ℕ → Option ℚ) :
    ℕ → ℕ → Option ℚ :=
  fun i j =>
    if i = M1 - 1 ∧ 1 ≤ j ∧ j ≤ N1 - 2 then some (g (M1 - 3) (j - 1))
    else if i = 0 ∧ 1 ≤ j ∧ j ≤ N1 - 2 then some (g 0 (j - 1))
    else c i j

/-- `c[1:-1,0] = west; c[1:-1,-1] = east` — periodic zonal border fill of the
west and east columns at interior rows (east assigned second; source lines
258-259, 269-270). -/
def zonalPeriodicFill (M1 N1 : ℕ) (west east : ℕ → ℚ) (c : ℕ → ℕ → Option ℚ) :
    ℕ → ℕ → Option ℚ :=
  fun i j =>
    if j = N1 - 1 ∧ 1 ≤ i ∧ i ≤ M1 - 2 then some (east i)
    else if j = 0 ∧ 1 ≤ i ∧ i ≤ M1 - 2 then some (west i)
    else c i j

/-- `c[0,1:-1] = north; c[-1,1:-1] = south` — periodic meridional border fill
of the north and south rows at interior columns (south assigned second;
source lines 286-287, 297-298). -/
def meridPeriodicFill (M1 N1 : ℕ) (north south : ℕ → ℚ) (c : ℕ → ℕ → Option ℚ) :
    ℕ → ℕ → Option ℚ :=
  fun i j =>
    if i = M1 - 1 ∧ 1 ≤ j ∧ j ≤ N1 - 2 then some (south j)
    else if i = 0 ∧ 1 ≤ j ∧ j ≤ N1 - 2 then some (north j)
    else c i j

/-- The fully-assembled `curl1` array of `derive_adj` (source lines 235-313):
interior fill, then the boundary-condition branch structure of the source. -/
def adj_curl1 (e : List ℚ) (DX DY : ℕ → ℕ → ℚ) (M1 N1 : ℕ) (ZBC MBC : String)
    (IDATA : List Bool) : ℕ → ℕ → Option ℚ :=
  let er := maskScatter IDATA e
  let curl0 := interiorInit M1 N1 (adj_curl er DX DY M1 N1)
  if ZBC = "periodic" ∨ MBC = "periodic" then
    let afterZ :=
      if ZBC = "periodic" then
        zonalPeriodicFill M1 N1 (adj_westC er DX DY M1 N1) (adj_eastC er DX DY M1 N1) curl0
      else colCopyClosed N1 curl0
    if MBC = "periodic" then
      meridPeriodicFill M1 N1 (adj_northC er DX DY M1 N1) (adj_southC er DX DY M1 N1) afterZ
    else rowCopyClosed M1 afterZ
  else colCopyClosed N1 (rowFillClosed M1 N1 (adj_curl er DX DY M1 N1) curl0)

/-- The fully-assembled `div1` array of `derive_adj` (source lines 241-313). -/
def adj_div1 (e : List ℚ) (DX DY : ℕ → ℕ → ℚ) (M1 N1 : ℕ) (ZBC MBC : String)
    (IDATA : List Bool) : ℕ → ℕ → Option ℚ :=
  let er := maskScatter IDATA e
  let div0 := interiorInit M1 N1 (adj_div er DX DY M1 N1)
  if ZBC = "periodic" ∨ MBC = "periodic" then
    let afterZ :=
      if ZBC = "periodic" then
        zonalPeriodicFill M1 N1 (adj_westD er DX DY M1 N1) (adj_eastD er DX DY M1 N1) div0
      else colCopyClosed N1 div0
    if MBC = "periodic" then
      meridPeriodicFill M1 N1 (adj_northD er DX DY M1 N1) (adj_southD er DX DY M1 N1) afterZ
    else rowCopyClosed M1 afterZ
  else colCopyClosed N1 (rowFillClosed M1 N1 (adj_div er DX DY M1 N1) div0)

/-- Adjoint operator `derive_adj` (source lines 191-324): scatter the residual
back onto the q-point grid, assemble the `curl1` and `div1` arrays, and
flatten `curl1` and `-div1` (curl segment first).  Entries never assigned keep
the `np.nan` initialisation, modelled as `none`. -/
def derive_adj (e : List ℚ) (DX DY : ℕ → ℕ → ℚ) (M1 N1 : ℕ) (ZBC MBC : String)
    (IDATA : List Bool) : List (Option ℚ) :=
  ((List.range (M1 * N1)).map fun k => adj_curl1 e DX DY M1 N1 ZBC MBC IDATA (k / N1) (k % N1))
    ++ ((List.range (M1 * N1)).map fun k =>
      (adj_div1 e DX DY M1 N1 ZBC MBC IDATA (k / N1) (k % N1)).map (fun q => -q))

/-- Objective `ja` (source lines 92-114):
`J = 0.5 * eᵀe + (ALPHA*0.5) * xᵀx` with `e = y - derive_ax(x, ...)`. -/
def ja (x y : List ℚ) (DX DY : ℕ → ℕ → ℚ) (M1 N1 : ℕ) (IDATA : List Bool)
    (ZBC MBC : String) (ALPHA : ℚ) : ℚ :=
  let Ax := derive_ax x DX DY M1 N1 IDATA
  let e := List.zipWith (fun p q => p - q) y Ax
  (1/2) * dot e e + ALPHA * (1/2) * dot x x

/-- Gradient `grad_ja` (source lines 123-147):
`gj = -derive_adj(y - derive_ax(x,...), ...) + ALPHA * x`, componentwise, with
`NaN` entries of the adjoint propagating into the output. -/
def grad_ja (x y : List ℚ) (DX DY : ℕ → ℕ → ℚ) (M1 N1 : ℕ) (IDATA : List Bool)
    (ZBC MBC : String) (ALPHA : ℚ) : List (Option ℚ) :=
  let Ax := derive_ax x DX DY M1 N1 IDATA
  let e := List.zipWith (fun p q => p - q) y Ax
  let adj := derive_adj e DX DY M1 N1 ZBC MBC IDATA
  List.zipWith (fun o xv => o.map (fun q => -q + ALPHA * xv)) adj x

/-- Driver `psi_lietal` (source lines 5-87).  The external scipy minimizer is a
parameter `minimize` taking the objective, the gradient and the start vector.
The driver packs `U`, `V` (possibly `NaN`, i.e. `none`) into the masked
observation vector `y` and the mask `idata`, packs `IPSI`, `IPHI` into the
start vector, invokes the minimizer — performing no validation of any kind —
and reshapes the result.  `M`, `N` are `U.shape`; `M1`, `N1` are `IPSI.shape`. -/
def psi_lietal
    (minimize : (List ℚ → ℚ) → (List ℚ → List (Option ℚ)) → List ℚ → List ℚ)
    (IPSI IPHI : ℕ → ℕ → ℚ) (M1 N1 : ℕ) (DX DY : ℕ → ℕ → ℚ)
    (U V : ℕ → ℕ → Option ℚ) (M N : ℕ) (ZBC MBC : String) (ALPHA : ℚ) :
    (ℕ → ℕ → ℚ) × (ℕ → ℕ → ℚ) :=
  let y0 : List (Option ℚ) := ((List.range (M * N)).map fun k => U (k / N) (k % N))
    ++ ((List.range (M * N)).map fun k => V (k / N) (k % N))
  let idata : List Bool := y0.map Option.isSome
  let y : List ℚ := y0.filterMap id
  let x0 : List ℚ := ((List.range (M1 * N1)).map fun k => IPSI (k / N1) (k % N1))
    ++ ((List.range (M1 * N1)).map fun k => IPHI (k / N1) (k % N1))
  let xstar := minimize
    (fun x => ja x y DX DY M1 N1 idata ZBC MBC ALPHA)
    (fun x => grad_ja x y DX DY M1 N1 idata ZBC MBC ALPHA)
    x0
  (fun i j => vecGet xstar (i * N1 + j), fun i j => vecGet xstar (M1 * N1 + i * N1 + j))

/-- Read a vector of optional values with `0` in place of `NaN` (used only to
state inner products once the relevant entries are known to be assigned). -/
def optVal (l : List (Option ℚ)) : List ℚ := l.map (fun o => o.getD 0)

/-- Uniform unit spacing grid. -/
def uniGrid : ℕ → ℕ → ℚ := fun _ _ => 1

/-- All-valid mask of length `n`. -/
def fullMask (n : ℕ) : List Bool := List.replicate n true

/-! ### Generic lemmas about the vector operations -/

theorem vecGet_comb (a b : ℚ) (x1 x2 : List ℚ) (h : x1.length = x2.length) (k : ℕ) :
    vecGet (List.zipWith (fun p q => a * p + b * q) x1 x2) k
      = a * vecGet x1 k + b * vecGet x2 k := by
  induction x1 generalizing x2 k with
  | nil =>
    have hx : x2 = [] := by cases x2 <;> simp_all
    subst hx
    simp [vecGet]
  | cons p t ih =>
    cases x2 with
    | nil => simp at h
    | cons q s =>
      cases k with
      | zero => simp [vecGet]
      | succ k => simpa [vecGet] using ih s (by simpa using h) k

theorem maskFilter_nil (mask : List Bool) : maskFilter mask [] = [] := by
  cases mask <;> simp [maskFilter]

theorem maskFilter_cons_true (ms : List Bool) (a : ℚ) (l : List ℚ) :
    maskFilter (true :: ms) (a :: l) = a :: maskFilter ms l := by
  simp [maskFilter]

theorem maskFilter_cons_false (ms : List Bool) (a : ℚ) (l : List ℚ) :
    maskFilter (false :: ms) (a :: l) = maskFilter ms l := by
  simp [maskFilter]

theorem maskFilter_length (mask : List Bool) (l : List ℚ) (h : mask.length ≤ l.length) :
    (maskFilter mask l).length = mask.count true := by
  induction mask generalizing l with
  | nil => simp [maskFilter]
  | cons b ms ih =>
    cases l with
    | nil => simp at h
    | cons a t =>
      cases b
      · rw [maskFilter_cons_false, ih t (by simpa using h)]
        simp [List.count_cons]
      · rw [maskFilter_cons_true]
        simp [List.count_cons, ih t (by simpa using h)]

theorem maskFilter_zipWith (f : ℚ → ℚ → ℚ) (mask : List Bool) (l1 l2 : List ℚ)
    (h : l1.length = l2.length) :
    maskFilter mask (List.zipWith f l1 l2)
      = List.zipWith f (maskFilter mask l1) (maskFilter mask l2) := by
  induction mask generalizing l1 l2 with
  | nil => simp [maskFilter]
  | cons b ms ih =>
    cases l1 with
    | nil =>
      have hx : l2 = [] := by cases l2 <;> simp_all
      subst hx
      simp [maskFilter_nil]
    | cons a t =>
      cases l2 with
      | nil => simp at h
      | cons c s =>
        cases b
        · rw [List.zipWith_cons_cons, maskFilter_cons_false, maskFilter_cons_false,
            maskFilter_cons_false, ih t s (by simpa using h)]
        · rw [List.zipWith_cons_cons, maskFilter_cons_true, maskFilter_cons_true,
            maskFilter_cons_true, ih t s (by simpa using h), List.zipWith_cons_cons]

theorem maskFilter_replicate_true (n : ℕ) (l : List ℚ) :
    maskFilter (List.replicate n true) l = l.take n := by
  induction n generalizing l with
  | zero => simp [maskFilter]
  | succ n ih =>
    cases l with
    | nil => simp [maskFilter_nil]
    | cons a t => rw [List.replicate_succ, maskFilter_cons_true, ih t, List.take_succ_cons]

theorem zipWith_map_same {α : Type} (f : ℚ → ℚ → ℚ) (g1 g2 : α → ℚ) (l : List α) :
    List.zipWith f (l.map g1) (l.map g2) = l.map (fun k => f (g1 k) (g2 k)) := by
  induction l with
  | nil => simp
  | cons a t ih => simp [ih]

theorem sumSq_cons (a : ℚ) (t : List ℚ) : sumSq (a :: t) = a * a + sumSq t := by
  simp [sumSq]

theorem sumSq_nonneg (l : List ℚ) : 0 ≤ sumSq l := by
  induction l with
  | nil => simp [sumSq]
  | cons a t ih =>
    rw [sumSq_cons]
    have ha := mul_self_nonneg a
    linarith

theorem dot_cons (a b : ℚ) (as bs : List ℚ) :
    dot (a :: as) (b :: bs) = a * b + dot as bs := by
  simp [dot]

theorem dot_self_eq_sumSq (l : List ℚ) : dot l l = sumSq l := by
  induction l with
  | nil => rfl
  | cons a t ih => rw [dot_cons, sumSq_cons, ih]

theorem dot_comm (a b : List ℚ) : dot a b = dot b a := by
  induction a generalizing b with
  | nil => cases b <;> rfl
  | cons p t ih =>
    cases b with
    | nil => rfl
    | cons q s => rw [dot_cons, dot_cons, ih s, mul_comm]

/-! ### Linearity of the forward operator -/

theorem ax_u_comb (a b : ℚ) (x1 x2 : List ℚ) (DX DY : ℕ → ℕ → ℚ) (M1 N1 : ℕ)
    (h : x1.length = x2.length) (i j : ℕ) :
    ax_u (List.zipWith (fun p q => a * p + b * q) x1 x2) DX DY M1 N1 i j
      = a * ax_u x1 DX DY M1 N1 i j + b * ax_u x2 DX DY M1 N1 i j := by
  simp only [ax_u, vecGet_comb a b x1 x2 h]
  ring

theorem ax_v_comb (a b : ℚ) (x1 x2 : List ℚ) (DX DY : ℕ → ℕ → ℚ) (M1 N1 : ℕ)
    (h : x1.length = x2.length) (i j : ℕ) :
    ax_v (List.zipWith (fun p q => a * p + b * q) x1 x2) DX DY M1 N1 i j
      = a * ax_v x1 DX DY M1 N1 i j + b * ax_v x2 DX DY M1 N1 i j := by
  simp only [ax_v, vecGet_comb a b x1 x2 h]
  ring

theorem derive_ax_comb (a b : ℚ) (x1 x2 : List ℚ) (DX DY : ℕ → ℕ → ℚ) (M1 N1 : ℕ)
    (IDATA : List Bool) (h : x1.length = x2.length) :
    derive_ax (List.zipWith (fun p q => a * p + b * q) x1 x2) DX DY M1 N1 IDATA
      = List.zipWith (fun p q => a * p + b * q)
          (derive_ax x1 DX DY M1 N1 IDATA) (derive_ax x2 DX DY M1 N1 IDATA) := by
  simp only [derive_ax]
  rw [← maskFilter_zipWith _ _ _ _ (by simp)]
  congr 1
  rw [List.zipWith_append _ _ _ _ _ (by simp)]
  congr 1
  · rw [zipWith_map_same]
    exact List.map_congr_left fun k _ => ax_u_comb a b x1 x2 DX DY M1 N1 h _ _
  · rw [zipWith_map_same]
    exact List.map_congr_left fun k _ => ax_v_comb a b x1 x2 DX DY M1 N1 h _ _

/-- Standard basis vector of length `n`. -/
def unitVec (n k : ℕ) : List ℚ := (List.range n).map (fun t => if t = k then 1 else 0)

theorem closed_ne_periodic : (("closed" : String) = "periodic") = False := by decide

theorem periodic_eq_periodic : (("periodic" : String) = "periodic") = True := by decide

theorem range_4 : List.range 4 = [0, 1, 2, 3] := rfl

theorem range_9 : List.range 9 = [0, 1, 2, 3, 4, 5, 6, 7, 8] := rfl

theorem range_15 : List.range 15 = [0, 1, 2, 3, 4, 5, 6, 7, 8, 9, 10, 11, 12, 13, 14] := rfl

theorem range_16 : List.range 16 = [0, 1, 2, 3, 4, 5, 6, 7, 8, 9, 10, 11, 12, 13, 14, 15] := rfl

theorem range_18 : List.range 18
    = [0, 1, 2, 3, 4, 5, 6, 7, 8, 9, 10, 11, 12, 13, 14, 15, 16, 17] := rfl

theorem range_24 : List.range 24
    = [0, 1, 2, 3, 4, 5, 6, 7, 8, 9, 10, 11, 12, 13, 14, 15, 16, 17, 18, 19, 20, 21, 22, 23] :=
  rfl

/-- C5: the forward operator returns a vector whose length is the number of
`true` entries of the mask (when the mask has the documented length
`2*(M1-1)*(N1-1)`), and the map `x ↦ derive_ax x` is linear: it sends
`a*x1 + b*x2` to `a*derive_ax x1 + b*derive_ax x2`. -/
theorem C5_derive_ax_contract (x1 x2 : List ℚ) (DX DY : ℕ → ℕ → ℚ) (M1 N1 : ℕ)
    (IDATA : List Bool) (a b : ℚ)
    (hm : IDATA.length = 2 * ((M1 - 1) * (N1 - 1))) (h : x1.length = x2.length) :
    (derive_ax x1 DX DY M1 N1 IDATA).length = IDATA.count true
    ∧ derive_ax (List.zipWith (fun p q => a * p + b * q) x1 x2) DX DY M1 N1 IDATA
        = List.zipWith (fun p q => a * p + b * q)
            (derive_ax x1 DX DY M1 N1 IDATA) (derive_ax x2 DX DY M1 N1 IDATA) := by
  refine ⟨?_, derive_ax_comb a b x1 x2 DX DY M1 N1 IDATA h⟩
  simp only [derive_ax]
  apply maskFilter_length
  simp only [List.length_append, List.length_map, List.length_range, hm]
  omega

/-- Witness for C5 at a concrete 3×3 grid with full mask. -/
theorem C5_witness :
    (fullMask 8).length = 2 * ((3 - 1) * (3 - 1))
    ∧ (unitVec 18 0).length = (unitVec 18 3).length
    ∧ ((derive_ax (unitVec 18 0) uniGrid uniGrid 3 3 (fullMask 8)).length
          = (fullMask 8).count true
       ∧ derive_ax (List.zipWith (fun p q => 2 * p + 3 * q) (unitVec 18 0) (unitVec 18 3))
             uniGrid uniGrid 3 3 (fullMask 8)
           = List.zipWith (fun p q => 2 * p + 3 * q)
               (derive_ax (unitVec 18 0) uniGrid uniGrid 3 3 (fullMask 8))
               (derive_ax (unitVec 18 3) uniGrid uniGrid 3 3 (fullMask 8))) :=
  ⟨by decide, by decide,
    C5_derive_ax_contract (unitVec 18 0) (unitVec 18 3) uniGrid uniGrid 3 3 (fullMask 8)
      2 3 (by decide) (by decide)⟩

/-- C4: `ja` returns `0.5*‖y - derive_ax(x,...)‖² + 0.5*ALPHA*‖x‖²` where the
norms are Euclidean (sums of squared entries). -/
theorem C4_ja_formula (x y : List ℚ) (DX DY : ℕ → ℕ → ℚ) (M1 N1 : ℕ) (IDATA : List Bool)
    (ZBC MBC : String) (ALPHA : ℚ) :
    ja x y DX DY M1 N1 IDATA ZBC MBC ALPHA
      = (1/2) * sumSq (List.zipWith (fun p q => p - q) y (derive_ax x DX DY M1 N1 IDATA))
        + (1/2) * ALPHA * sumSq x := by
  simp only [ja]
  rw [dot_self_eq_sumSq, dot_self_eq_sumSq]
  ring

/-- C10: for `ALPHA ≥ 0` the objective `ja` is nonnegative (a weighted sum of
two sums of squares). -/
theorem C10_ja_nonneg (x y : List ℚ) (DX DY : ℕ → ℕ → ℚ) (M1 N1 : ℕ) (IDATA : List Bool)
    (ZBC MBC : String) (ALPHA : ℚ) (h : 0 ≤ ALPHA) :
    0 ≤ ja x y DX DY M1 N1 IDATA ZBC MBC ALPHA := by
  simp only [ja]
  rw [dot_self_eq_sumSq, dot_self_eq_sumSq]
  have h1 := sumSq_nonneg (List.zipWith (fun p q => p - q) y (derive_ax x DX DY M1 N1 IDATA))
  have h2 := sumSq_nonneg x
  have h3 : 0 ≤ ALPHA * (1/2) * sumSq x := by
    apply mul_nonneg
    · apply mul_nonneg h
      norm_num
    · exact h2
  linarith

/-- Witness for C10 at a concrete input with `ALPHA = 1`. -/
theorem C10_witness :
    (0 : ℚ) ≤ 1
    ∧ 0 ≤ ja (unitVec 18 0) (unitVec 8 0) uniGrid uniGrid 3 3 (fullMask 8)
        "closed" "closed" 1 :=
  ⟨by norm_num,
    C10_ja_nonneg (unitVec 18 0) (unitVec 8 0) uniGrid uniGrid 3 3 (fullMask 8)
      "closed" "closed" 1 (by norm_num)⟩

/-- Decision vector on the 3×3 grid supported on the interior p-points only:
`psi[1,1] = a`, `phi[1,1] = b`, all other entries zero. -/
def interiorSupported33 (a b : ℚ) : List ℚ := [0,0,0,0,a,0,0,0,0,0,0,0,0,b,0,0,0,0]

/-- C1 (counterexample): on the 3×3 uniform unit grid with full mask and
`ZBC = MBC = closed`, for `x = e₀` (the `psi[0,0]` direction) and `e = e₀`
(the `u[0,0]` residual), the two inner products of the discrete adjoint
identity are `-1/2` and `1/2`, hence differ — even though every entry of
`derive_adj` is assigned here.  This refutes the claimed exact adjoint
identity. -/
theorem C1_counterexample :
    (derive_adj [1,0,0,0,0,0,0,0] uniGrid uniGrid 3 3 "closed" "closed"
        (fullMask 8)).all Option.isSome = true
    ∧ dot (derive_ax [1,0,0,0,0,0,0,0,0,0,0,0,0,0,0,0,0,0] uniGrid uniGrid 3 3 (fullMask 8))
        [1,0,0,0,0,0,0,0] = -(1/2)
    ∧ dot [1,0,0,0,0,0,0,0,0,0,0,0,0,0,0,0,0,0]
        (optVal (derive_adj [1,0,0,0,0,0,0,0] uniGrid uniGrid 3 3 "closed" "closed"
          (fullMask 8))) = 1/2
    ∧ dot (derive_ax [1,0,0,0,0,0,0,0,0,0,0,0,0,0,0,0,0,0] uniGrid uniGrid 3 3 (fullMask 8))
          [1,0,0,0,0,0,0,0]
        ≠ dot [1,0,0,0,0,0,0,0,0,0,0,0,0,0,0,0,0,0]
            (optVal (derive_adj [1,0,0,0,0,0,0,0] uniGrid uniGrid 3 3 "closed" "closed"
              (fullMask 8))) := by
  have hS : (derive_adj [1,0,0,0,0,0,0,0] uniGrid uniGrid 3 3 "closed" "closed"
      (fullMask 8)).all Option.isSome = true := by
    norm_num only [derive_adj, range_9, List.map_cons, List.map_nil, List.map_append,
      List.cons_append, List.nil_append, List.append_nil, List.all_cons, List.all_nil,
      Bool.and_eq_true]
    norm_num [adj_curl1, adj_div1, closed_ne_periodic, interiorInit, colCopyClosed,
      rowCopyClosed, rowFillClosed]
  have hA : dot (derive_ax [1,0,0,0,0,0,0,0,0,0,0,0,0,0,0,0,0,0] uniGrid uniGrid 3 3
      (fullMask 8)) [1,0,0,0,0,0,0,0] = -(1/2) := by
    norm_num [derive_ax, ax_u, ax_v, dot, maskFilter_replicate_true, vecGet, uniGrid,
      fullMask, range_4]
  have hB : dot [1,0,0,0,0,0,0,0,0,0,0,0,0,0,0,0,0,0]
      (optVal (derive_adj [1,0,0,0,0,0,0,0] uniGrid uniGrid 3 3 "closed" "closed"
        (fullMask 8))) = 1/2 := by
    norm_num only [derive_adj, optVal, range_9, List.map_cons, List.map_nil, List.map_append,
      List.cons_append, List.nil_append, List.append_nil, dot, List.zipWith_cons_cons,
      List.zipWith_nil_right, List.zipWith_nil_left, List.sum_cons, List.sum_nil,
      zero_mul, one_mul, add_zero, zero_add]
    norm_num [adj_curl1, closed_ne_periodic, interiorInit, colCopyClosed, rowCopyClosed,
      rowFillClosed, adj_curl, adj_dvdx, adj_dudy, adj_u, adj_v, adj_dy, adj_dx,
      maskScatter, vecGet, uniGrid, fullMask]
  exact ⟨hS, hA, hB, by rw [hA, hB]; norm_num⟩

/-- C1 (amended): on the 3×3 uniform unit grid with full mask, the discrete
adjoint identity `⟨derive_ax x, e⟩ = ⟨x, derive_adj e⟩` does hold for every
residual `e` and every decision vector `x` supported on the interior p-points,
for each of the four `(ZBC, MBC)` combinations. -/
theorem C1_adjoint_identity_interior (a b e1 e2 e3 e4 e5 e6 e7 e8 : ℚ) :
    (dot (derive_ax (interiorSupported33 a b) uniGrid uniGrid 3 3 (fullMask 8))
        [e1,e2,e3,e4,e5,e6,e7,e8]
      = dot (interiorSupported33 a b)
          (optVal (derive_adj [e1,e2,e3,e4,e5,e6,e7,e8] uniGrid uniGrid 3 3
            "closed" "closed" (fullMask 8))))
    ∧ (dot (derive_ax (interiorSupported33 a b) uniGrid uniGrid 3 3 (fullMask 8))
        [e1,e2,e3,e4,e5,e6,e7,e8]
      = dot (interiorSupported33 a b)
          (optVal (derive_adj [e1,e2,e3,e4,e5,e6,e7,e8] uniGrid uniGrid 3 3
            "periodic" "closed" (fullMask 8))))
    ∧ (dot (derive_ax (interiorSupported33 a b) uniGrid uniGrid 3 3 (fullMask 8))
        [e1,e2,e3,e4,e5,e6,e7,e8]
      = dot (interiorSupported33 a b)
          (optVal (derive_adj [e1,e2,e3,e4,e5,e6,e7,e8] uniGrid uniGrid 3 3
            "closed" "periodic" (fullMask 8))))
    ∧ (dot (derive_ax (interiorSupported33 a b) uniGrid uniGrid 3 3 (fullMask 8))
        [e1,e2,e3,e4,e5,e6,e7,e8]
      = dot (interiorSupported33 a b)
          (optVal (derive_adj [e1,e2,e3,e4,e5,e6,e7,e8] uniGrid uniGrid 3 3
            "periodic" "periodic" (fullMask 8)))) := by
  have hmain : dot (derive_ax (interiorSupported33 a b) uniGrid uniGrid 3 3 (fullMask 8))
      [e1,e2,e3,e4,e5,e6,e7,e8]
      = dot (interiorSupported33 a b)
          (optVal (derive_adj [e1,e2,e3,e4,e5,e6,e7,e8] uniGrid uniGrid 3 3
            "closed" "closed" (fullMask 8))) := by
    norm_num only [interiorSupported33, derive_adj, derive_ax, optVal, range_4, range_9,
      List.map_cons, List.map_nil, List.map_append, List.cons_append, List.nil_append,
      List.append_nil, dot, List.zipWith_cons_cons, List.zipWith_nil_right,
      List.zipWith_nil_left, List.sum_cons, List.sum_nil, maskFilter_replicate_true,
      fullMask, List.take_succ_cons, List.take_zero,
      zero_mul, one_mul, add_zero, zero_add]
    norm_num [adj_curl1, adj_div1, closed_ne_periodic, interiorInit, colCopyClosed,
      rowCopyClosed, rowFillClosed, adj_curl, adj_div, adj_dvdx, adj_dudy, adj_dudx,
      adj_dvdy, adj_u, adj_v, adj_dy, adj_dx, ax_u, ax_v, maskScatter, vecGet, uniGrid]
    ring
  have t1 : dot (interiorSupported33 a b)
      (optVal (derive_adj [e1,e2,e3,e4,e5,e6,e7,e8] uniGrid uniGrid 3 3
        "periodic" "closed" (fullMask 8)))
      = dot (interiorSupported33 a b)
          (optVal (derive_adj [e1,e2,e3,e4,e5,e6,e7,e8] uniGrid uniGrid 3 3
            "closed" "closed" (fullMask 8))) := by
    norm_num only [interiorSupported33, derive_adj, optVal, range_9,
      List.map_cons, List.map_nil, List.map_append, List.cons_append, List.nil_append,
      List.append_nil, dot, List.zipWith_cons_cons, List.zipWith_nil_right,
      List.zipWith_nil_left, List.sum_cons, List.sum_nil,
      zero_mul, one_mul, add_zero, zero_add]
    norm_num [adj_curl1, adj_div1, closed_ne_periodic, periodic_eq_periodic, interiorInit,
      colCopyClosed, rowCopyClosed, rowFillClosed, zonalPeriodicFill, meridPeriodicFill]
  have t2 : dot (interiorSupported33 a b)
      (optVal (derive_adj [e1,e2,e3,e4,e5,e6,e7,e8] uniGrid uniGrid 3 3
        "closed" "periodic" (fullMask 8)))
      = dot (interiorSupported33 a b)
          (optVal (derive_adj [e1,e2,e3,e4,e5,e6,e7,e8] uniGrid uniGrid 3 3
            "closed" "closed" (fullMask 8))) := by
    norm_num only [interiorSupported33, derive_adj, optVal, range_9,
      List.map_cons, List.map_nil, List.map_append, List.cons_append, List.nil_append,
      List.append_nil, dot, List.zipWith_cons_cons, List.zipWith_nil_right,
      List.zipWith_nil_left, List.sum_cons, List.sum_nil,
      zero_mul, one_mul, add_zero, zero_add]
    norm_num [adj_curl1, adj_div1, closed_ne_periodic, periodic_eq_periodic, interiorInit,
      colCopyClosed, rowCopyClosed, rowFillClosed, zonalPeriodicFill, meridPeriodicFill]
  have t3 : dot (interiorSupported33 a b)
      (optVal (derive_adj [e1,e2,e3,e4,e5,e6,e7,e8] uniGrid uniGrid 3 3
        "periodic" "periodic" (fullMask 8)))
      = dot (interiorSupported33 a b)
          (optVal (derive_adj [e1,e2,e3,e4,e5,e6,e7,e8] uniGrid uniGrid 3 3
            "closed" "closed" (fullMask 8))) := by
    norm_num only [interiorSupported33, derive_adj, optVal, range_9,
      List.map_cons, List.map_nil, List.map_append, List.cons_append, List.nil_append,
      List.append_nil, dot, List.zipWith_cons_cons, List.zipWith_nil_right,
      List.zipWith_nil_left, List.sum_cons, List.sum_nil,
      zero_mul, one_mul, add_zero, zero_add]
    norm_num [adj_curl1, adj_div1, closed_ne_periodic, periodic_eq_periodic, interiorInit,
      colCopyClosed, rowCopyClosed, rowFillClosed, zonalPeriodicFill, meridPeriodicFill]
  exact ⟨hmain, by rw [t1]; exact hmain, by rw [t2]; exact hmain, by rw [t3]; exact hmain⟩

/-! ### Quadratic expansion of the objective -/

theorem zipWith_sub_add (y p q : List ℚ) :
    List.zipWith (fun a b => a - b) y (List.zipWith (fun a b => a + b) p q)
      = List.zipWith (fun a b => a - b) (List.zipWith (fun a b => a - b) y p) q := by
  induction y generalizing p q with
  | nil => simp
  | cons a t ih =>
    cases p with
    | nil => simp
    | cons b s =>
      cases q with
      | nil => simp
      | cons c r =>
        simp only [List.zipWith_cons_cons, ih]
        congr 1
        ring

theorem sumSq_zipWith_sub (p q : List ℚ) (h : p.length = q.length) :
    sumSq (List.zipWith (fun a b => a - b) p q) = sumSq p - 2 * dot p q + sumSq q := by
  induction p generalizing q with
  | nil =>
    have hq : q = [] := by cases q <;> simp_all
    subst hq
    simp [sumSq, dot]
  | cons a t ih =>
    cases q with
    | nil => simp at h
    | cons b s =>
      simp only [List.zipWith_cons_cons, sumSq_cons, dot_cons, ih s (by simpa using h)]
      ring

theorem sumSq_zipWith_add (p q : List ℚ) (h : p.length = q.length) :
    sumSq (List.zipWith (fun a b => a + b) p q) = sumSq p + 2 * dot p q + sumSq q := by
  induction p generalizing q with
  | nil =>
    have hq : q = [] := by cases q <;> simp_all
    subst hq
    simp [sumSq, dot]
  | cons a t ih =>
    cases q with
    | nil => simp at h
    | cons b s =>
      simp only [List.zipWith_cons_cons, sumSq_cons, dot_cons, ih s (by simpa using h)]
      ring

theorem dot_zipWith_lincomb (c : ℚ) (A x d : List ℚ) (h : A.length = x.length) :
    dot (List.zipWith (fun av xv => -av + c * xv) A x) d = -(dot A d) + c * dot x d := by
  induction A generalizing x d with
  | nil =>
    have hx : x = [] := by cases x <;> simp_all
    subst hx
    simp [dot]
  | cons a t ih =>
    cases x with
    | nil => simp at h
    | cons b s =>
      cases d with
      | nil => simp [dot]
      | cons w r =>
        simp only [List.zipWith_cons_cons, dot_cons, ih s r (by simpa using h)]
        ring

theorem optVal_zipWith_grad (c : ℚ) (adj : List (Option ℚ)) (x : List ℚ)
    (hsome : ∀ o ∈ adj, o.isSome = true) :
    optVal (List.zipWith (fun o xv => o.map (fun q => -q + c * xv)) adj x)
      = List.zipWith (fun av xv => -av + c * xv) (optVal adj) x := by
  induction adj generalizing x with
  | nil => simp [optVal]
  | cons o os ih =>
    cases x with
    | nil => simp [optVal]
    | cons xv xs =>
      obtain ⟨a, rfl⟩ := Option.isSome_iff_exists.mp (hsome o (by simp))
      simpa [optVal] using ih xs (fun o2 ho2 => hsome o2 (by simp [ho2]))

theorem zipWith_one_comb (l1 l2 : List ℚ) :
    List.zipWith (fun p q => (1 : ℚ) * p + 1 * q) l1 l2
      = List.zipWith (fun p q => p + q) l1 l2 := by
  induction l1 generalizing l2 with
  | nil => simp
  | cons a t ih =>
    cases l2 with
    | nil => simp
    | cons b s => simp [ih]

theorem derive_ax_add (x d : List ℚ) (DX DY : ℕ → ℕ → ℚ) (M1 N1 : ℕ) (IDATA : List Bool)
    (h : x.length = d.length) :
    derive_ax (List.zipWith (fun p q => p + q) x d) DX DY M1 N1 IDATA
      = List.zipWith (fun p q => p + q)
          (derive_ax x DX DY M1 N1 IDATA) (derive_ax d DX DY M1 N1 IDATA) := by
  have h2 := derive_ax_comb 1 1 x d DX DY M1 N1 IDATA h
  rw [zipWith_one_comb] at h2
  rw [h2, zipWith_one_comb]

theorem maskFilter_length_congr (m : List Bool) (l1 l2 : List ℚ) (h : l1.length = l2.length) :
    (maskFilter m l1).length = (maskFilter m l2).length := by
  induction m generalizing l1 l2 with
  | nil => simp [maskFilter]
  | cons b ms ih =>
    cases l1 with
    | nil =>
      have hx : l2 = [] := by cases l2 <;> simp_all
      subst hx
      rfl
    | cons a t =>
      cases l2 with
      | nil => simp at h
      | cons c s =>
        cases b
        · rw [maskFilter_cons_false, maskFilter_cons_false]
          exact ih t s (by simpa using h)
        · rw [maskFilter_cons_true, maskFilter_cons_true]
          simpa using ih t s (by simpa using h)

theorem derive_ax_length_const (x1 x2 : List ℚ) (DX DY : ℕ → ℕ → ℚ) (M1 N1 : ℕ)
    (IDATA : List Bool) :
    (derive_ax x1 DX DY M1 N1 IDATA).length = (derive_ax x2 DX DY M1 N1 IDATA).length := by
  simp only [derive_ax]
  apply maskFilter_length_congr
  simp

theorem derive_adj_length (e : List ℚ) (DX DY : ℕ → ℕ → ℚ) (M1 N1 : ℕ) (ZBC MBC : String)
    (IDATA : List Bool) :
    (derive_adj e DX DY M1 N1 ZBC MBC IDATA).length = 2 * (M1 * N1) := by
  simp only [derive_adj, List.length_append, List.length_map, List.length_range]
  omega

/-- C3 (amended): `grad_ja` equals `-derive_adj(y - derive_ax(x,...)) + ALPHA*x`
componentwise (the source formula); and the change of `ja` along a direction
`d` equals `⟨grad_ja(x), d⟩` plus the second-order term of the quadratic plus
an adjoint-defect term `⟨d, derive_adj e⟩ - ⟨e, derive_ax d⟩`, so `grad_ja` is
the exact analytic gradient precisely where that defect vanishes — which it
does not in general (see the counterexample). -/
theorem C3_grad_ja_formula_and_expansion
    (x d y : List ℚ) (DX DY : ℕ → ℕ → ℚ) (M1 N1 : ℕ) (IDATA : List Bool)
    (ZBC MBC : String) (ALPHA : ℚ)
    (hxd : x.length = d.length) (hx : x.length = 2 * (M1 * N1))
    (hy : y.length = (derive_ax x DX DY M1 N1 IDATA).length)
    (hsome : ∀ o ∈ derive_adj
        (List.zipWith (fun p q => p - q) y (derive_ax x DX DY M1 N1 IDATA))
        DX DY M1 N1 ZBC MBC IDATA, o.isSome = true) :
    grad_ja x y DX DY M1 N1 IDATA ZBC MBC ALPHA
      = List.zipWith (fun o xv => o.map (fun q => -q + ALPHA * xv))
          (derive_adj (List.zipWith (fun p q => p - q) y (derive_ax x DX DY M1 N1 IDATA))
            DX DY M1 N1 ZBC MBC IDATA) x
    ∧ ja (List.zipWith (fun p q => p + q) x d) y DX DY M1 N1 IDATA ZBC MBC ALPHA
        - ja x y DX DY M1 N1 IDATA ZBC MBC ALPHA
      = dot (optVal (grad_ja x y DX DY M1 N1 IDATA ZBC MBC ALPHA)) d
        + ((1/2) * sumSq (derive_ax d DX DY M1 N1 IDATA)
            + ALPHA * (1/2) * sumSq d)
        + (dot d (optVal (derive_adj
              (List.zipWith (fun p q => p - q) y (derive_ax x DX DY M1 N1 IDATA))
              DX DY M1 N1 ZBC MBC IDATA))
          - dot (List.zipWith (fun p q => p - q) y (derive_ax x DX DY M1 N1 IDATA))
              (derive_ax d DX DY M1 N1 IDATA)) := by
  constructor
  · rfl
  · have hAxAd : (derive_ax x DX DY M1 N1 IDATA).length
        = (derive_ax d DX DY M1 N1 IDATA).length :=
      derive_ax_length_const x d DX DY M1 N1 IDATA
    have hLe : (List.zipWith (fun p q => p - q) y (derive_ax x DX DY M1 N1 IDATA)).length
        = (derive_ax d DX DY M1 N1 IDATA).length := by
      rw [List.length_zipWith, hy, hAxAd]
      exact Nat.min_self _
    have hadjlen : (optVal (derive_adj
        (List.zipWith (fun p q => p - q) y (derive_ax x DX DY M1 N1 IDATA))
        DX DY M1 N1 ZBC MBC IDATA)).length = x.length := by
      simp only [optVal, List.length_map, derive_adj_length, hx]
    have e5 : optVal (grad_ja x y DX DY M1 N1 IDATA ZBC MBC ALPHA)
        = List.zipWith (fun av xv => -av + ALPHA * xv)
            (optVal (derive_adj (List.zipWith (fun p q => p - q) y
              (derive_ax x DX DY M1 N1 IDATA)) DX DY M1 N1 ZBC MBC IDATA)) x := by
      simp only [grad_ja]
      exact optVal_zipWith_grad ALPHA _ x hsome
    simp only [ja]
    rw [derive_ax_add x d DX DY M1 N1 IDATA hxd, zipWith_sub_add]
    rw [dot_self_eq_sumSq, dot_self_eq_sumSq, dot_self_eq_sumSq, dot_self_eq_sumSq]
    rw [sumSq_zipWith_sub _ _ hLe, sumSq_zipWith_add x d hxd]
    rw [e5, dot_zipWith_lincomb ALPHA _ x d hadjlen]
    rw [dot_comm d (optVal (derive_adj
      (List.zipWith (fun p q => p - q) y (derive_ax x DX DY M1 N1 IDATA))
      DX DY M1 N1 ZBC MBC IDATA))]
    ring

/-- C3 (counterexample): at the 3×3 uniform closed-BC grid with `ALPHA = 0`,
`x = 0`, `y = e₀`, direction `d = e₀` (the `psi[0,0]` direction), the change
`ja(x+d) - ja(x) = 3/4` differs from the first-order term `⟨grad_ja(x), d⟩`
plus the second-order term of the quadratic, which is `-1/4`: `grad_ja` is
not the exact analytic gradient of `ja`. -/
theorem C3_counterexample :
    ja (List.zipWith (fun p q => p + q)
        [0,0,0,0,0,0,0,0,0,0,0,0,0,0,0,0,0,0] [1,0,0,0,0,0,0,0,0,0,0,0,0,0,0,0,0,0])
        [1,0,0,0,0,0,0,0] uniGrid uniGrid 3 3 (fullMask 8) "closed" "closed" 0
      - ja [0,0,0,0,0,0,0,0,0,0,0,0,0,0,0,0,0,0] [1,0,0,0,0,0,0,0] uniGrid uniGrid 3 3
          (fullMask 8) "closed" "closed" 0
    ≠ dot (optVal (grad_ja [0,0,0,0,0,0,0,0,0,0,0,0,0,0,0,0,0,0] [1,0,0,0,0,0,0,0]
          uniGrid uniGrid 3 3 (fullMask 8) "closed" "closed" 0))
        [1,0,0,0,0,0,0,0,0,0,0,0,0,0,0,0,0,0]
      + ((1/2) * sumSq (derive_ax [1,0,0,0,0,0,0,0,0,0,0,0,0,0,0,0,0,0] uniGrid uniGrid 3 3
            (fullMask 8))
          + 0 * (1/2) * sumSq [1,0,0,0,0,0,0,0,0,0,0,0,0,0,0,0,0,0]) := by
  have h1 : ja (List.zipWith (fun p q => p + q)
      [0,0,0,0,0,0,0,0,0,0,0,0,0,0,0,0,0,0] [1,0,0,0,0,0,0,0,0,0,0,0,0,0,0,0,0,0])
      [1,0,0,0,0,0,0,0] uniGrid uniGrid 3 3 (fullMask 8) "closed" "closed" 0 = 5/4 := by
    norm_num [ja, derive_ax, ax_u, ax_v, dot, maskFilter_replicate_true, vecGet, uniGrid,
      fullMask, range_4]
  have h2 : ja [0,0,0,0,0,0,0,0,0,0,0,0,0,0,0,0,0,0] [1,0,0,0,0,0,0,0] uniGrid uniGrid 3 3
      (fullMask 8) "closed" "closed" 0 = 1/2 := by
    norm_num [ja, derive_ax, ax_u, ax_v, dot, maskFilter_replicate_true, vecGet, uniGrid,
      fullMask, range_4]
  have h3 : dot (optVal (grad_ja [0,0,0,0,0,0,0,0,0,0,0,0,0,0,0,0,0,0] [1,0,0,0,0,0,0,0]
      uniGrid uniGrid 3 3 (fullMask 8) "closed" "closed" 0))
      [1,0,0,0,0,0,0,0,0,0,0,0,0,0,0,0,0,0] = -(1/2) := by
    norm_num only [grad_ja, derive_adj, optVal, range_9, List.map_cons, List.map_nil,
      List.map_append, List.cons_append, List.nil_append, List.append_nil, dot,
      List.zipWith_cons_cons, List.zipWith_nil_right, List.zipWith_nil_left,
      List.sum_cons, List.sum_nil, zero_mul, one_mul, add_zero, zero_add]
    norm_num [adj_curl1, closed_ne_periodic, interiorInit, colCopyClosed, rowCopyClosed,
      rowFillClosed, adj_curl, adj_dvdx, adj_dudy, adj_u, adj_v, adj_dy, adj_dx,
      maskScatter, vecGet, uniGrid, fullMask, derive_ax, ax_u, ax_v,
      maskFilter_replicate_true, range_4]
  have h4 : sumSq (derive_ax [1,0,0,0,0,0,0,0,0,0,0,0,0,0,0,0,0,0] uniGrid uniGrid 3 3
      (fullMask 8)) = 1/2 := by
    norm_num [sumSq, derive_ax, ax_u, ax_v, maskFilter_replicate_true, vecGet, uniGrid,
      fullMask, range_4]
  rw [h1, h2, h3, h4]
  norm_num [sumSq]

/-- Witness for C3 at the concrete input of the counterexample. -/
theorem C3_witness :
    ([0,0,0,0,0,0,0,0,0,0,0,0,0,0,0,0,0,0] : List ℚ).length
        = ([1,0,0,0,0,0,0,0,0,0,0,0,0,0,0,0,0,0] : List ℚ).length
    ∧ ([0,0,0,0,0,0,0,0,0,0,0,0,0,0,0,0,0,0] : List ℚ).length = 2 * (3 * 3)
    ∧ ([1,0,0,0,0,0,0,0] : List ℚ).length
        = (derive_ax [0,0,0,0,0,0,0,0,0,0,0,0,0,0,0,0,0,0] uniGrid uniGrid 3 3
            (fullMask 8)).length
    ∧ (∀ o ∈ derive_adj
        (List.zipWith (fun p q => p - q) [1,0,0,0,0,0,0,0]
          (derive_ax [0,0,0,0,0,0,0,0,0,0,0,0,0,0,0,0,0,0] uniGrid uniGrid 3 3 (fullMask 8)))
        uniGrid uniGrid 3 3 "closed" "closed" (fullMask 8), o.isSome = true)
    ∧ (grad_ja [0,0,0,0,0,0,0,0,0,0,0,0,0,0,0,0,0,0] [1,0,0,0,0,0,0,0] uniGrid uniGrid 3 3
          (fullMask 8) "closed" "closed" 1
        = List.zipWith (fun o xv => o.map (fun q => -q + 1 * xv))
            (derive_adj (List.zipWith (fun p q => p - q) [1,0,0,0,0,0,0,0]
                (derive_ax [0,0,0,0,0,0,0,0,0,0,0,0,0,0,0,0,0,0] uniGrid uniGrid 3 3
                  (fullMask 8)))
              uniGrid uniGrid 3 3 "closed" "closed" (fullMask 8))
            [0,0,0,0,0,0,0,0,0,0,0,0,0,0,0,0,0,0]
      ∧ ja (List.zipWith (fun p q => p + q)
            [0,0,0,0,0,0,0,0,0,0,0,0,0,0,0,0,0,0] [1,0,0,0,0,0,0,0,0,0,0,0,0,0,0,0,0,0])
            [1,0,0,0,0,0,0,0] uniGrid uniGrid 3 3 (fullMask 8) "closed" "closed" 1
          - ja [0,0,0,0,0,0,0,0,0,0,0,0,0,0,0,0,0,0] [1,0,0,0,0,0,0,0] uniGrid uniGrid 3 3
              (fullMask 8) "closed" "closed" 1
        = dot (optVal (grad_ja [0,0,0,0,0,0,0,0,0,0,0,0,0,0,0,0,0,0] [1,0,0,0,0,0,0,0]
              uniGrid uniGrid 3 3 (fullMask 8) "closed" "closed" 1))
            [1,0,0,0,0,0,0,0,0,0,0,0,0,0,0,0,0,0]
          + ((1/2) * sumSq (derive_ax [1,0,0,0,0,0,0,0,0,0,0,0,0,0,0,0,0,0] uniGrid uniGrid
                3 3 (fullMask 8))
              + 1 * (1/2) * sumSq [1,0,0,0,0,0,0,0,0,0,0,0,0,0,0,0,0,0])
          + (dot [1,0,0,0,0,0,0,0,0,0,0,0,0,0,0,0,0,0]
                (optVal (derive_adj (List.zipWith (fun p q => p - q) [1,0,0,0,0,0,0,0]
                    (derive_ax [0,0,0,0,0,0,0,0,0,0,0,0,0,0,0,0,0,0] uniGrid uniGrid 3 3
                      (fullMask 8)))
                  uniGrid uniGrid 3 3 "closed" "closed" (fullMask 8)))
            - dot (List.zipWith (fun p q => p - q) [1,0,0,0,0,0,0,0]
                  (derive_ax [0,0,0,0,0,0,0,0,0,0,0,0,0,0,0,0,0,0] uniGrid uniGrid 3 3
                    (fullMask 8)))
                (derive_ax [1,0,0,0,0,0,0,0,0,0,0,0,0,0,0,0,0,0] uniGrid uniGrid 3 3
                  (fullMask 8)))) :=
  ⟨by decide, by decide, by decide, by decide,
    C3_grad_ja_formula_and_expansion
      [0,0,0,0,0,0,0,0,0,0,0,0,0,0,0,0,0,0] [1,0,0,0,0,0,0,0,0,0,0,0,0,0,0,0,0,0]
      [1,0,0,0,0,0,0,0] uniGrid uniGrid 3 3 (fullMask 8) "closed" "closed" 1
      (by decide) (by decide) (by decide) (by decide)⟩

/-- C2: with `MBC = 'periodic'` (either `ZBC`), the four corner cells of each
of the `curl1` and `div1` arrays are never assigned and stay `NaN` (`none`):
flattened positions 0, 2, 6, 8 of each 3×3 segment.  With `MBC = 'closed'`
every entry is assigned.  The `NaN` corners propagate into `grad_ja`, whose
entry 0 is `NaN`, so the gradient handed to the optimizer is poisoned. -/
theorem C2_nan_corners :
    ((derive_adj (List.replicate 8 1) uniGrid uniGrid 3 3 "closed" "periodic"
        (fullMask 8)).map Option.isSome
      = [false, true, false, true, true, true, false, true, false,
         false, true, false, true, true, true, false, true, false])
    ∧ ((derive_adj (List.replicate 8 1) uniGrid uniGrid 3 3 "periodic" "periodic"
        (fullMask 8)).map Option.isSome
      = [false, true, false, true, true, true, false, true, false,
         false, true, false, true, true, true, false, true, false])
    ∧ ((derive_adj (List.replicate 8 1) uniGrid uniGrid 3 3 "periodic" "closed"
        (fullMask 8)).map Option.isSome = List.replicate 18 true)
    ∧ ((derive_adj (List.replicate 8 1) uniGrid uniGrid 3 3 "closed" "closed"
        (fullMask 8)).map Option.isSome = List.replicate 18 true)
    ∧ ((grad_ja [0,0,0,0,0,0,0,0,0,0,0,0,0,0,0,0,0,0] (List.replicate 8 1) uniGrid uniGrid
        3 3 (fullMask 8) "closed" "periodic" 1).getD 0 none = none) := by
  decide

/-- C6 (counterexample): `IPSI`/`IPHI` are 2×2 and `U`/`V` are 2×2 — not one
cell smaller in each axis — yet `psi_lietal` performs no check: the minimizer
is invoked and its (stub) output is reshaped and returned. -/
theorem C6_counterexample :
    (psi_lietal (fun _f _g _x0 => List.replicate 8 37) (fun _ _ => 1) (fun _ _ => 1) 2 2
        uniGrid uniGrid (fun _ _ => some 1) (fun _ _ => some 1) 2 2
        "closed" "closed" 1).1 0 0 = 37
    ∧ (psi_lietal (fun _f _g _x0 => List.replicate 8 37) (fun _ _ => 1) (fun _ _ => 1) 2 2
        uniGrid uniGrid (fun _ _ => some 1) (fun _ _ => some 1) 2 2
        "closed" "closed" 1).2 1 1 = 37 := by
  decide

/-- C6 (amended): `psi_lietal` validates nothing: for every input — including
shape-mismatched ones — it packs the data, invokes the minimizer on the packed
objective, gradient and start vector, and returns the reshaped result.  No
error path exists before the minimizer call. -/
theorem C6_no_shape_validation
    (minimize : (List ℚ → ℚ) → (List ℚ → List (Option ℚ)) → List ℚ → List ℚ)
    (IPSI IPHI : ℕ → ℕ → ℚ) (M1 N1 : ℕ) (DX DY : ℕ → ℕ → ℚ)
    (U V : ℕ → ℕ → Option ℚ) (M N : ℕ) (ZBC MBC : String) (ALPHA : ℚ) :
    psi_lietal minimize IPSI IPHI M1 N1 DX DY U V M N ZBC MBC ALPHA
      = ((fun i j => vecGet (minimize
            (fun x => ja x ((((List.range (M * N)).map fun k => U (k / N) (k % N))
                ++ ((List.range (M * N)).map fun k => V (k / N) (k % N))).filterMap id)
              DX DY M1 N1
              ((((List.range (M * N)).map fun k => U (k / N) (k % N))
                ++ ((List.range (M * N)).map fun k => V (k / N) (k % N))).map Option.isSome)
              ZBC MBC ALPHA)
            (fun x => grad_ja x ((((List.range (M * N)).map fun k => U (k / N) (k % N))
                ++ ((List.range (M * N)).map fun k => V (k / N) (k % N))).filterMap id)
              DX DY M1 N1
              ((((List.range (M * N)).map fun k => U (k / N) (k % N))
                ++ ((List.range (M * N)).map fun k => V (k / N) (k % N))).map Option.isSome)
              ZBC MBC ALPHA)
            (((List.range (M1 * N1)).map fun k => IPSI (k / N1) (k % N1))
              ++ ((List.range (M1 * N1)).map fun k => IPHI (k / N1) (k % N1))))
          (i * N1 + j)),
        (fun i j => vecGet (minimize
            (fun x => ja x ((((List.range (M * N)).map fun k => U (k / N) (k % N))
                ++ ((List.range (M * N)).map fun k => V (k / N) (k % N))).filterMap id)
              DX DY M1 N1
              ((((List.range (M * N)).map fun k => U (k / N) (k % N))
                ++ ((List.range (M * N)).map fun k => V (k / N) (k % N))).map Option.isSome)
              ZBC MBC ALPHA)
            (fun x => grad_ja x ((((List.range (M * N)).map fun k => U (k / N) (k % N))
                ++ ((List.range (M * N)).map fun k => V (k / N) (k % N))).filterMap id)
              DX DY M1 N1
              ((((List.range (M * N)).map fun k => U (k / N) (k % N))
                ++ ((List.range (M * N)).map fun k => V (k / N) (k % N))).map Option.isSome)
              ZBC MBC ALPHA)
            (((List.range (M1 * N1)).map fun k => IPSI (k / N1) (k % N1))
              ++ ((List.range (M1 * N1)).map fun k => IPHI (k / N1) (k % N1))))
          (M1 * N1 + i * N1 + j))) := rfl

/-- C7 (counterexample): the unrecognized boundary tag `'diagonal'` raises no
error and is silently treated as `'closed'` — `derive_adj` returns exactly the
all-closed result, and `psi_lietal` still invokes the minimizer and returns
fields. -/
theorem C7_counterexample :
    derive_adj [1,2,3,4,5,6,7,8] uniGrid uniGrid 3 3 "diagonal" "closed" (fullMask 8)
      = derive_adj [1,2,3,4,5,6,7,8] uniGrid uniGrid 3 3 "closed" "closed" (fullMask 8)
    ∧ (psi_lietal (fun _f _g _x0 => List.replicate 18 37) (fun _ _ => 0) (fun _ _ => 0) 3 3
        uniGrid uniGrid (fun _ _ => some 1) (fun _ _ => some 1) 2 2
        "diagonal" "closed" 1).1 0 0 = 37 := by
  exact ⟨rfl, by decide⟩

/-- C7 (amended): the boundary-condition tags are only ever compared against
the string `'periodic'`: two tag pairs that agree on whether each equals
`'periodic'` give identical `derive_adj` results; in particular every
unrecognized tag behaves exactly like `'closed'` and no error is raised. -/
theorem C7_bc_tag_periodic_only
    (e : List ℚ) (DX DY : ℕ → ℕ → ℚ) (M1 N1 : ℕ) (IDATA : List Bool)
    (ZBC MBC ZBC2 MBC2 : String)
    (hz : ZBC = "periodic" ↔ ZBC2 = "periodic")
    (hm : MBC = "periodic" ↔ MBC2 = "periodic") :
    derive_adj e DX DY M1 N1 ZBC MBC IDATA = derive_adj e DX DY M1 N1 ZBC2 MBC2 IDATA := by
  have hz2 : (ZBC = "periodic") = (ZBC2 = "periodic") := propext hz
  have hm2 : (MBC = "periodic") = (MBC2 = "periodic") := propext hm
  simp only [derive_adj, adj_curl1, adj_div1, hz2, hm2]

/-- Witness for C7 with the unrecognized tag `'diagonal'` against `'closed'`. -/
theorem C7_witness :
    ((("diagonal" : String) = "periodic") ↔ (("closed" : String) = "periodic"))
    ∧ ((("closed" : String) = "periodic") ↔ (("closed" : String) = "periodic"))
    ∧ derive_adj [1,1,1,1,1,1,1,1] uniGrid uniGrid 3 3 "diagonal" "closed" (fullMask 8)
        = derive_adj [1,1,1,1,1,1,1,1] uniGrid uniGrid 3 3 "closed" "closed" (fullMask 8) :=
  ⟨by decide, by decide,
    C7_bc_tag_periodic_only [1,1,1,1,1,1,1,1] uniGrid uniGrid 3 3 (fullMask 8)
      "diagonal" "closed" "closed" "closed" (by decide) (by decide)⟩

/-- C8 (counterexample): with every entry of `U`, `V` masked (`NaN`),
`psi_lietal` raises nothing: the minimizer is invoked (here a stub) and its
output is reshaped and returned as fields. -/
theorem C8_counterexample :
    (psi_lietal (fun _f _g _x0 => List.replicate 18 37) (fun _ _ => 0) (fun _ _ => 0) 3 3
        uniGrid uniGrid (fun _ _ => none) (fun _ _ => none) 2 2
        "closed" "closed" 1).1 0 0 = 37
    ∧ (psi_lietal (fun _f _g _x0 => List.replicate 18 37) (fun _ _ => 0) (fun _ _ => 0) 3 3
        uniGrid uniGrid (fun _ _ => none) (fun _ _ => none) 2 2
        "closed" "closed" 1).2 2 2 = 37 := by
  decide

/-- C8 (amended): `psi_lietal` does not detect the all-masked degenerate
input: the observation vector packs to `[]`, the mask to all-`false`, the
minimizer is still invoked on them, and for the empty observation vector the
objective degenerates to the pure regularization term
`ja x [] ... = ALPHA * 0.5 * ⟨x, x⟩` — with no division-by-zero or
shape failure. -/
theorem C8_no_degenerate_detection
    (minimize : (List ℚ → ℚ) → (List ℚ → List (Option ℚ)) → List ℚ → List ℚ)
    (IPSI IPHI : ℕ → ℕ → ℚ) (M1 N1 : ℕ) (DX DY : ℕ → ℕ → ℚ)
    (M N : ℕ) (ZBC MBC : String) (ALPHA : ℚ) :
    ((((List.range (M * N)).map fun k => (fun _ _ => (none : Option ℚ)) (k / N) (k % N))
      ++ ((List.range (M * N)).map fun k => (fun _ _ => (none : Option ℚ)) (k / N) (k % N))).filterMap id
        = ([] : List ℚ))
    ∧ psi_lietal minimize IPSI IPHI M1 N1 DX DY (fun _ _ => none) (fun _ _ => none) M N
        ZBC MBC ALPHA
      = ((fun i j => vecGet (minimize
            (fun x => ja x [] DX DY M1 N1
              (List.replicate (M * N) false ++ List.replicate (M * N) false) ZBC MBC ALPHA)
            (fun x => grad_ja x [] DX DY M1 N1
              (List.replicate (M * N) false ++ List.replicate (M * N) false) ZBC MBC ALPHA)
            (((List.range (M1 * N1)).map fun k => IPSI (k / N1) (k % N1))
              ++ ((List.range (M1 * N1)).map fun k => IPHI (k / N1) (k % N1))))
          (i * N1 + j)),
        (fun i j => vecGet (minimize
            (fun x => ja x [] DX DY M1 N1
              (List.replicate (M * N) false ++ List.replicate (M * N) false) ZBC MBC ALPHA)
            (fun x => grad_ja x [] DX DY M1 N1
              (List.replicate (M * N) false ++ List.replicate (M * N) false) ZBC MBC ALPHA)
            (((List.range (M1 * N1)).map fun k => IPSI (k / N1) (k % N1))
              ++ ((List.range (M1 * N1)).map fun k => IPHI (k / N1) (k % N1))))
          (M1 * N1 + i * N1 + j)))
    ∧ (∀ x : List ℚ, ja x [] DX DY M1 N1
        (List.replicate (M * N) false ++ List.replicate (M * N) false) ZBC MBC ALPHA
          = ALPHA * (1/2) * dot x x) := by
  refine ⟨by simp, ?_, ?_⟩
  · simp only [psi_lietal]
    simp
  · intro x
    simp only [ja, List.zipWith_nil_left]
    simp [dot]

theorem maskScatter_full (n : ℕ) (e : List ℚ) (h : e.length = n) :
    maskScatter (List.replicate n true) e = e := by
  induction n generalizing e with
  | zero =>
    have he : e = [] := by cases e <;> simp_all
    subst he
    rfl
  | succ n ih =>
    cases e with
    | nil => simp at h
    | cons a t =>
      rw [List.replicate_succ, maskScatter, ih t (by simpa using h)]

theorem getD_map_range {β : Type} (f : ℕ → β) (n k : ℕ) (d : β) (h : k < n) :
    (((List.range n).map f).getD k d) = f k := by
  rw [List.getD_eq_getElem?_getD, List.getElem?_map, List.getElem?_range h]
  rfl

theorem derive_adj_getD_curl (e : List ℚ) (DX DY : ℕ → ℕ → ℚ) (M1 N1 : ℕ)
    (ZBC MBC : String) (IDATA : List Bool) (k : ℕ) (h : k < M1 * N1) :
    (derive_adj e DX DY M1 N1 ZBC MBC IDATA).getD k none
      = adj_curl1 e DX DY M1 N1 ZBC MBC IDATA (k / N1) (k % N1) := by
  simp only [derive_adj]
  rw [List.getD_append _ _ _ _ (by simpa using h)]
  exact getD_map_range _ _ _ _ h

theorem derive_adj_getD_div (e : List ℚ) (DX DY : ℕ → ℕ → ℚ) (M1 N1 : ℕ)
    (ZBC MBC : String) (IDATA : List Bool) (k : ℕ) (h1 : M1 * N1 ≤ k)
    (h2 : k < 2 * (M1 * N1)) :
    (derive_adj e DX DY M1 N1 ZBC MBC IDATA).getD k none
      = (adj_div1 e DX DY M1 N1 ZBC MBC IDATA ((k - M1 * N1) / N1)
          ((k - M1 * N1) % N1)).map (fun q => -q) := by
  simp only [derive_adj]
  rw [List.getD_append_right _ _ _ _ (by simpa using h1)]
  rw [List.length_map, List.length_range]
  exact getD_map_range _ _ _ _ (by omega)

/-- A residual vector on the 4×6 grid (q-point shape 3×5) supported on the
last velocity column only: `u[i,4] = aᵢ`, `v[i,4] = bᵢ`, all other entries
zero. -/
def lastColVec46 (a0 a1 a2 b0 b1 b2 : ℚ) : List ℚ :=
  [0,0,0,0,a0, 0,0,0,0,a1, 0,0,0,0,a2, 0,0,0,0,b0, 0,0,0,0,b1, 0,0,0,0,b2]

/-- C9 (counterexample): on the 4×6 grid with `ZBC = 'periodic'`, the nonzero
residual with `v` last column `(1, -1, 1)` (supported only on the last
velocity column) produces **zero** in every first-column entry of both the
curl and the divergence fields — the pairwise averaging of the wrapped
difference cancels — refuting the claim that any such residual yields a
nonzero first-column contribution. -/
theorem C9_counterexample :
    (lastColVec46 0 0 0 1 (-1) 1).getD 19 0 = 1
    ∧ ((derive_adj (lastColVec46 0 0 0 1 (-1) 1) uniGrid uniGrid 4 6 "periodic" "closed"
        (fullMask 30)).all Option.isSome = true)
    ∧ ((derive_adj (lastColVec46 0 0 0 1 (-1) 1) uniGrid uniGrid 4 6 "periodic" "closed"
        (fullMask 30)).getD 0 none = some 0)
    ∧ ((derive_adj (lastColVec46 0 0 0 1 (-1) 1) uniGrid uniGrid 4 6 "periodic" "closed"
        (fullMask 30)).getD 6 none = some 0)
    ∧ ((derive_adj (lastColVec46 0 0 0 1 (-1) 1) uniGrid uniGrid 4 6 "periodic" "closed"
        (fullMask 30)).getD 12 none = some 0)
    ∧ ((derive_adj (lastColVec46 0 0 0 1 (-1) 1) uniGrid uniGrid 4 6 "periodic" "closed"
        (fullMask 30)).getD 18 none = some 0)
    ∧ ((derive_adj (lastColVec46 0 0 0 1 (-1) 1) uniGrid uniGrid 4 6 "periodic" "closed"
        (fullMask 30)).getD 24 none = some 0)
    ∧ ((derive_adj (lastColVec46 0 0 0 1 (-1) 1) uniGrid uniGrid 4 6 "periodic" "closed"
        (fullMask 30)).getD 30 none = some 0)
    ∧ ((derive_adj (lastColVec46 0 0 0 1 (-1) 1) uniGrid uniGrid 4 6 "periodic" "closed"
        (fullMask 30)).getD 36 none = some 0)
    ∧ ((derive_adj (lastColVec46 0 0 0 1 (-1) 1) uniGrid uniGrid 4 6 "periodic" "closed"
        (fullMask 30)).getD 42 none = some 0) := by
  have hs : maskScatter (fullMask 30) (lastColVec46 0 0 0 1 (-1) 1)
      = lastColVec46 0 0 0 1 (-1) 1 := maskScatter_full 30 _ rfl
  refine ⟨rfl, by decide, ?_, ?_, ?_, ?_, ?_, ?_, ?_, ?_⟩
  · rw [derive_adj_getD_curl _ _ _ _ _ _ _ _ _ (by norm_num)]
    simp only [adj_curl1, hs, closed_ne_periodic, periodic_eq_periodic, or_true,
      true_or, or_false, false_or, ite_true, ite_false]
    norm_num only [zonalPeriodicFill, rowCopyClosed, interiorInit, colCopyClosed,
      rowFillClosed, meridPeriodicFill]
    norm_num [adj_westC, adj_eastC, adj_westD, adj_eastD, adj_curl, adj_div, adj_dvdx,
      adj_dudy, adj_dudx, adj_dvdy, adj_dvdx1, adj_dudy1, adj_dudy2, adj_dvdy1, adj_dvdy2,
      adj_dudx1, adj_u, adj_v, adj_dy, adj_dx, vecGet, lastColVec46, uniGrid]
  · rw [derive_adj_getD_curl _ _ _ _ _ _ _ _ _ (by norm_num)]
    simp only [adj_curl1, hs, closed_ne_periodic, periodic_eq_periodic, or_true,
      true_or, or_false, false_or, ite_true, ite_false]
    norm_num only [zonalPeriodicFill, rowCopyClosed, interiorInit, colCopyClosed,
      rowFillClosed, meridPeriodicFill]
    norm_num [adj_westC, adj_eastC, adj_westD, adj_eastD, adj_curl, adj_div, adj_dvdx,
      adj_dudy, adj_dudx, adj_dvdy, adj_dvdx1, adj_dudy1, adj_dudy2, adj_dvdy1, adj_dvdy2,
      adj_dudx1, adj_u, adj_v, adj_dy, adj_dx, vecGet, lastColVec46, uniGrid]
  · rw [derive_adj_getD_curl _ _ _ _ _ _ _ _ _ (by norm_num)]
    simp only [adj_curl1, hs, closed_ne_periodic, periodic_eq_periodic, or_true,
      true_or, or_false, false_or, ite_true, ite_false]
    norm_num only [zonalPeriodicFill, rowCopyClosed, interiorInit, colCopyClosed,
      rowFillClosed, meridPeriodicFill]
    norm_num [adj_westC, adj_eastC, adj_westD, adj_eastD, adj_curl, adj_div, adj_dvdx,
      adj_dudy, adj_dudx, adj_dvdy, adj_dvdx1, adj_dudy1, adj_dudy2, adj_dvdy1, adj_dvdy2,
      adj_dudx1, adj_u, adj_v, adj_dy, adj_dx, vecGet, lastColVec46, uniGrid]
  · rw [derive_adj_getD_curl _ _ _ _ _ _ _ _ _ (by norm_num)]
    simp only [adj_curl1, hs, closed_ne_periodic, periodic_eq_periodic, or_true,
      true_or, or_false, false_or, ite_true, ite_false]
    norm_num only [zonalPeriodicFill, rowCopyClosed, interiorInit, colCopyClosed,
      rowFillClosed, meridPeriodicFill]
    norm_num [adj_westC, adj_eastC, adj_westD, adj_eastD, adj_curl, adj_div, adj_dvdx,
      adj_dudy, adj_dudx, adj_dvdy, adj_dvdx1, adj_dudy1, adj_dudy2, adj_dvdy1, adj_dvdy2,
      adj_dudx1, adj_u, adj_v, adj_dy, adj_dx, vecGet, lastColVec46, uniGrid]
  · rw [derive_adj_getD_div _ _ _ _ _ _ _ _ _ (by norm_num) (by norm_num)]
    simp only [adj_div1, hs, closed_ne_periodic, periodic_eq_periodic, or_true,
      true_or, or_false, false_or, ite_true, ite_false]
    norm_num only [zonalPeriodicFill, rowCopyClosed, interiorInit, colCopyClosed,
      rowFillClosed, meridPeriodicFill]
    norm_num [adj_westC, adj_eastC, adj_westD, adj_eastD, adj_curl, adj_div, adj_dvdx,
      adj_dudy, adj_dudx, adj_dvdy, adj_dvdx1, adj_dudy1, adj_dudy2, adj_dvdy1, adj_dvdy2,
      adj_dudx1, adj_u, adj_v, adj_dy, adj_dx, vecGet, lastColVec46, uniGrid]
  · rw [derive_adj_getD_div _ _ _ _ _ _ _ _ _ (by norm_num) (by norm_num)]
    simp only [adj_div1, hs, closed_ne_periodic, periodic_eq_periodic, or_true,
      true_or, or_false, false_or, ite_true, ite_false]
    norm_num only [zonalPeriodicFill, rowCopyClosed, interiorInit, colCopyClosed,
      rowFillClosed, meridPeriodicFill]
    norm_num [adj_westC, adj_eastC, adj_westD, adj_eastD, adj_curl, adj_div, adj_dvdx,
      adj_dudy, adj_dudx, adj_dvdy, adj_dvdx1, adj_dudy1, adj_dudy2, adj_dvdy1, adj_dvdy2,
      adj_dudx1, adj_u, adj_v, adj_dy, adj_dx, vecGet, lastColVec46, uniGrid]
  · rw [derive_adj_getD_div _ _ _ _ _ _ _ _ _ (by norm_num) (by norm_num)]
    simp only [adj_div1, hs, closed_ne_periodic, periodic_eq_periodic, or_true,
      true_or, or_false, false_or, ite_true, ite_false]
    norm_num only [zonalPeriodicFill, rowCopyClosed, interiorInit, colCopyClosed,
      rowFillClosed, meridPeriodicFill]
    norm_num [adj_westC, adj_eastC, adj_westD, adj_eastD, adj_curl, adj_div, adj_dvdx,
      adj_dudy, adj_dudx, adj_dvdy, adj_dvdx1, adj_dudy1, adj_dudy2, adj_dvdy1, adj_dvdy2,
      adj_dudx1, adj_u, adj_v, adj_dy, adj_dx, vecGet, lastColVec46, uniGrid]
  · rw [derive_adj_getD_div _ _ _ _ _ _ _ _ _ (by norm_num) (by norm_num)]
    simp only [adj_div1, hs, closed_ne_periodic, periodic_eq_periodic, or_true,
      true_or, or_false, false_or, ite_true, ite_false]
    norm_num only [zonalPeriodicFill, rowCopyClosed, interiorInit, colCopyClosed,
      rowFillClosed, meridPeriodicFill]
    norm_num [adj_westC, adj_eastC, adj_westD, adj_eastD, adj_curl, adj_div, adj_dvdx,
      adj_dudy, adj_dudx, adj_dvdy, adj_dvdx1, adj_dudy1, adj_dudy2, adj_dvdy1, adj_dvdy2,
      adj_dudx1, adj_u, adj_v, adj_dy, adj_dx, vecGet, lastColVec46, uniGrid]

/-- C9 (amended): on the 4×6 grid, there is a residual concentrated in the
last velocity column (`v[0,4] = 1`) whose `derive_adj` under `ZBC='periodic'`
has a nonzero first-column curl entry (`curl1[1,0] = -1/2`, the wrap effect);
and under `ZBC='closed'`, for **every** residual supported on the last
velocity column, all eight first-column curl and divergence entries are
assigned and equal to zero (no cross-edge contribution). -/
theorem C9_periodic_wrap (a0 a1 a2 b0 b1 b2 : ℚ) :
    ((derive_adj (lastColVec46 0 0 0 1 0 0) uniGrid uniGrid 4 6 "periodic" "closed"
        (fullMask 30)).getD 6 none = some (-(1/2)))
    ∧ ((derive_adj (lastColVec46 a0 a1 a2 b0 b1 b2) uniGrid uniGrid 4 6 "closed" "closed"
        (fullMask 30)).getD 0 none = some 0)
    ∧ ((derive_adj (lastColVec46 a0 a1 a2 b0 b1 b2) uniGrid uniGrid 4 6 "closed" "closed"
        (fullMask 30)).getD 6 none = some 0)
    ∧ ((derive_adj (lastColVec46 a0 a1 a2 b0 b1 b2) uniGrid uniGrid 4 6 "closed" "closed"
        (fullMask 30)).getD 12 none = some 0)
    ∧ ((derive_adj (lastColVec46 a0 a1 a2 b0 b1 b2) uniGrid uniGrid 4 6 "closed" "closed"
        (fullMask 30)).getD 18 none = some 0)
    ∧ ((derive_adj (lastColVec46 a0 a1 a2 b0 b1 b2) uniGrid uniGrid 4 6 "closed" "closed"
        (fullMask 30)).getD 24 none = some 0)
    ∧ ((derive_adj (lastColVec46 a0 a1 a2 b0 b1 b2) uniGrid uniGrid 4 6 "closed" "closed"
        (fullMask 30)).getD 30 none = some 0)
    ∧ ((derive_adj (lastColVec46 a0 a1 a2 b0 b1 b2) uniGrid uniGrid 4 6 "closed" "closed"
        (fullMask 30)).getD 36 none = some 0)
    ∧ ((derive_adj (lastColVec46 a0 a1 a2 b0 b1 b2) uniGrid uniGrid 4 6 "closed" "closed"
        (fullMask 30)).getD 42 none = some 0) := by
  have hs0 : maskScatter (fullMask 30) (lastColVec46 0 0 0 1 0 0)
      = lastColVec46 0 0 0 1 0 0 := maskScatter_full 30 _ rfl
  have hs : maskScatter (fullMask 30) (lastColVec46 a0 a1 a2 b0 b1 b2)
      = lastColVec46 a0 a1 a2 b0 b1 b2 := maskScatter_full 30 _ rfl
  refine ⟨?_, ?_, ?_, ?_, ?_, ?_, ?_, ?_, ?_⟩
  · rw [derive_adj_getD_curl _ _ _ _ _ _ _ _ _ (by norm_num)]
    simp only [adj_curl1, hs0, closed_ne_periodic, periodic_eq_periodic, or_true,
      true_or, or_false, false_or, ite_true, ite_false]
    norm_num only [zonalPeriodicFill, rowCopyClosed, interiorInit, colCopyClosed,
      rowFillClosed, meridPeriodicFill]
    norm_num [adj_westC, adj_eastC, adj_westD, adj_eastD, adj_curl, adj_div, adj_dvdx,
      adj_dudy, adj_dudx, adj_dvdy, adj_dvdx1, adj_dudy1, adj_dudy2, adj_dvdy1, adj_dvdy2,
      adj_dudx1, adj_u, adj_v, adj_dy, adj_dx, vecGet, lastColVec46, uniGrid]
  · rw [derive_adj_getD_curl _ _ _ _ _ _ _ _ _ (by norm_num)]
    simp only [adj_curl1, hs, closed_ne_periodic, periodic_eq_periodic, or_true,
      true_or, or_false, false_or, ite_true, ite_false]
    norm_num only [zonalPeriodicFill, rowCopyClosed, interiorInit, colCopyClosed,
      rowFillClosed, meridPeriodicFill]
    norm_num [adj_westC, adj_eastC, adj_westD, adj_eastD, adj_curl, adj_div, adj_dvdx,
      adj_dudy, adj_dudx, adj_dvdy, adj_dvdx1, adj_dudy1, adj_dudy2, adj_dvdy1, adj_dvdy2,
      adj_dudx1, adj_u, adj_v, adj_dy, adj_dx, vecGet, lastColVec46, uniGrid]
  · rw [derive_adj_getD_curl _ _ _ _ _ _ _ _ _ (by norm_num)]
    simp only [adj_curl1, hs, closed_ne_periodic, periodic_eq_periodic, or_true,
      true_or, or_false, false_or, ite_true, ite_false]
    norm_num only [zonalPeriodicFill, rowCopyClosed, interiorInit, colCopyClosed,
      rowFillClosed, meridPeriodicFill]
    norm_num [adj_westC, adj_eastC, adj_westD, adj_eastD, adj_curl, adj_div, adj_dvdx,
      adj_dudy, adj_dudx, adj_dvdy, adj_dvdx1, adj_dudy1, adj_dudy2, adj_dvdy1, adj_dvdy2,
      adj_dudx1, adj_u, adj_v, adj_dy, adj_dx, vecGet, lastColVec46, uniGrid]
  · rw [derive_adj_getD_curl _ _ _ _ _ _ _ _ _ (by norm_num)]
    simp only [adj_curl1, hs, closed_ne_periodic, periodic_eq_periodic, or_true,
      true_or, or_false, false_or, ite_true, ite_false]
    norm_num only [zonalPeriodicFill, rowCopyClosed, interiorInit, colCopyClosed,
      rowFillClosed, meridPeriodicFill]
    norm_num [adj_westC, adj_eastC, adj_westD, adj_eastD, adj_curl, adj_div, adj_dvdx,
      adj_dudy, adj_dudx, adj_dvdy, adj_dvdx1, adj_dudy1, adj_dudy2, adj_dvdy1, adj_dvdy2,
      adj_dudx1, adj_u, adj_v, adj_dy, adj_dx, vecGet, lastColVec46, uniGrid]
  · rw [derive_adj_getD_curl _ _ _ _ _ _ _ _ _ (by norm_num)]
    simp only [adj_curl1, hs, closed_ne_periodic, periodic_eq_periodic, or_true,
      true_or, or_false, false_or, ite_true, ite_false]
    norm_num only [zonalPeriodicFill, rowCopyClosed, interiorInit, colCopyClosed,
      rowFillClosed, meridPeriodicFill]
    norm_num [adj_westC, adj_eastC, adj_westD, adj_eastD, adj_curl, adj_div, adj_dvdx,
      adj_dudy, adj_dudx, adj_dvdy, adj_dvdx1, adj_dudy1, adj_dudy2, adj_dvdy1, adj_dvdy2,
      adj_dudx1, adj_u, adj_v, adj_dy, adj_dx, vecGet, lastColVec46, uniGrid]
  · rw [derive_adj_getD_div _ _ _ _ _ _ _ _ _ (by norm_num) (by norm_num)]
    simp only [adj_div1, hs, closed_ne_periodic, periodic_eq_periodic, or_true,
      true_or, or_false, false_or, ite_true, ite_false]
    norm_num only [zonalPeriodicFill, rowCopyClosed, interiorInit, colCopyClosed,
      rowFillClosed, meridPeriodicFill]
    norm_num [adj_westC, adj_eastC, adj_westD, adj_eastD, adj_curl, adj_div, adj_dvdx,
      adj_dudy, adj_dudx, adj_dvdy, adj_dvdx1, adj_dudy1, adj_dudy2, adj_dvdy1, adj_dvdy2,
      adj_dudx1, adj_u, adj_v, adj_dy, adj_dx, vecGet, lastColVec46, uniGrid]
  · rw [derive_adj_getD_div _ _ _ _ _ _ _ _ _ (by norm_num) (by norm_num)]
    simp only [adj_div1, hs, closed_ne_periodic, periodic_eq_periodic, or_true,
      true_or, or_false, false_or, ite_true, ite_false]
    norm_num only [zonalPeriodicFill, rowCopyClosed, interiorInit, colCopyClosed,
      rowFillClosed, meridPeriodicFill]
    norm_num [adj_westC, adj_eastC, adj_westD, adj_eastD, adj_curl, adj_div, adj_dvdx,
      adj_dudy, adj_dudx, adj_dvdy, adj_dvdx1, adj_dudy1, adj_dudy2, adj_dvdy1, adj_dvdy2,
      adj_dudx1, adj_u, adj_v, adj_dy, adj_dx, vecGet, lastColVec46, uniGrid]
  · rw [derive_adj_getD_div _ _ _ _ _ _ _ _ _ (by norm_num) (by norm_num)]
    simp only [adj_div1, hs, closed_ne_periodic, periodic_eq_periodic, or_true,
      true_or, or_false, false_or, ite_true, ite_false]
    norm_num only [zonalPeriodicFill, rowCopyClosed, interiorInit, colCopyClosed,
      rowFillClosed, meridPeriodicFill]
    norm_num [adj_westC, adj_eastC, adj_westD, adj_eastD, adj_curl, adj_div, adj_dvdx,
      adj_dudy, adj_dudx, adj_dvdy, adj_dvdx1, adj_dudy1, adj_dudy2, adj_dvdy1, adj_dvdy2,
      adj_dudx1, adj_u, adj_v, adj_dy, adj_dx, vecGet, lastColVec46, uniGrid]
  · rw [derive_adj_getD_div _ _ _ _ _ _ _ _ _ (by norm_num) (by norm_num)]
    simp only [adj_div1, hs, closed_ne_periodic, periodic_eq_periodic, or_true,
      true_or, or_false, false_or, ite_true, ite_false]
    norm_num only [zonalPeriodicFill, rowCopyClosed, interiorInit, colCopyClosed,
      rowFillClosed, meridPeriodicFill]
    norm_num [adj_westC, adj_eastC, adj_westD, adj_eastD, adj_curl, adj_div, adj_dvdx,
      adj_dudy, adj_dudx, adj_dvdy, adj_dvdx1, adj_dudy1, adj_dudy2, adj_dvdy1, adj_dvdy2,
      adj_dudx1, adj_u, adj_v, adj_dy, adj_dx, vecGet, lastColVec46, uniGrid]
